import Mathlib

/-!
Verification of the stepper motion controller and its ramp generators.

This development shallowly embeds the C sources of the stepper motion
controller driver:

- the trapezoidal (AVR446-style) ramp generator
  (drivers/stepper/motion_controller/ramp/stepper_ramp_trapezoidal.c),
- the constant-velocity ramp generator
  (drivers/stepper/motion_controller/ramp/stepper_ramp_constant.c),
- the motion controller tick/command logic (stepper_motion_controller.c).

Machine integers are modelled as `Nat` with explicit reductions modulo
2^32 (`u32`) and 2^64 (`u64`) at every C operation whose result can exceed
the machine width for in-range operands.  Operations that C leaves
undefined (division by zero) are modelled by `Option`: `none` marks the
undefined execution.  The structures mirror the C structs field by field;
the functions mirror the C statement by statement.
-/

set_option maxHeartbeats 4000000

def U32 : Nat := 4294967296

def U64 : Nat := 18446744073709551616

def u32 (n : Nat) : Nat := n % U32

def u64 (n : Nat) : Nat := n % U64

def NSEC_PER_SEC : Nat := 1000000000

/-- Body of the `while (y < x)` loop of `isqrt` (stepper_ramp_trapezoidal.c,
lines 33-39), written as structural recursion on an explicit fuel counter.
One unfolding performs one loop pass: compute `y = (x + n / x) / 2` and
continue with `y` while `y < x`.  The fuel only bounds the number of
passes; `isqrtGo_fuel` below shows the result is independent of the fuel
once it dominates the start value, which is exactly termination of the C
loop. -/
def isqrtGo (n : Nat) : Nat → Nat → Nat
  | 0, x => x
  | fuel+1, x =>
      let y := (x + n / x) / 2
      if y < x then isqrtGo n fuel y else x

/-- Integer square root by the Babylonian method
(stepper_ramp_trapezoidal.c, lines 27-41).  For `n ≤ 1` the input is
returned; otherwise the loop starts from `x = n` with first test value
`y = (n + 1) / 2`, which equals `(x + n / x) / 2` at `x = n`, so the loop
is `isqrtGo` started at `n` with fuel `n`.  The C function returns
`(uint32_t)x`, hence the final reduction modulo 2^32. -/
def isqrt (n : Nat) : Nat :=
  (if n ≤ 1 then n else isqrtGo n n n) % U32

/-- AM-GM for the Babylonian step: the iterate never falls below
`Nat.sqrt n` as long as it stays positive. -/
lemma sqrt_le_avg (n x : Nat) (hx : 1 ≤ x) : Nat.sqrt n ≤ (x + n / x) / 2 := by
  set s := Nat.sqrt n with hs
  rcases le_or_lt (2 * s) x with h | h
  · calc s ≤ x / 2 := by omega
    _ ≤ (x + n / x) / 2 := Nat.div_le_div_right (Nat.le_add_right _ _)
  · have hsn : s * s ≤ n := Nat.sqrt_le n
    have hsq : (2 * s - x) * x ≤ s * s := by
      zify [le_of_lt h]
      nlinarith [sq_nonneg ((x : Int) - s)]
    have hdiv : 2 * s - x ≤ n / x := (Nat.le_div_iff_mul_le hx).2 (le_trans hsq hsn)
    omega

/-- Once the iterate is at least `Nat.sqrt n` and the fuel dominates it,
the Babylonian loop computes exactly `Nat.sqrt n`. -/
lemma isqrtGo_eq_sqrt (n : Nat) (hn : 1 ≤ Nat.sqrt n) :
    ∀ fuel x, Nat.sqrt n ≤ x → x ≤ fuel → isqrtGo n fuel x = Nat.sqrt n := by
  intro fuel
  induction fuel with
  | zero => intro x hsx hxf; interval_cases x; omega
  | succ f ih =>
    intro x hsx hxf
    have hx1 : 1 ≤ x := le_trans hn hsx
    show (if (x + n / x) / 2 < x then isqrtGo n f ((x + n / x) / 2) else x) = Nat.sqrt n
    by_cases hlt : (x + n / x) / 2 < x
    · rw [if_pos hlt]
      exact ih _ (sqrt_le_avg n x hx1) (by omega)
    · rw [if_neg hlt]
      push_neg at hlt
      have h2x : 2 * x ≤ x + n / x := by omega
      have hxd : x ≤ n / x := by omega
      have hxx : x * x ≤ n := by
        calc x * x ≤ n / x * x := Nat.mul_le_mul_right x hxd
        _ ≤ n := Nat.div_mul_le_self n x
      have : x ≤ Nat.sqrt n := Nat.le_sqrt.2 hxx
      omega

lemma isqrt_eq_sqrt (n : Nat) (h : n < U64) : isqrt n = Nat.sqrt n := by
  by_cases h1 : n ≤ 1
  · unfold isqrt
    rw [if_pos h1]
    interval_cases n <;> decide
  · have hs1 : 1 ≤ Nat.sqrt n := Nat.le_sqrt.2 (by omega)
    have hsx : Nat.sqrt n ≤ n := Nat.sqrt_le_self n
    have hgo := isqrtGo_eq_sqrt n hs1 n n hsx le_rfl
    unfold isqrt
    rw [if_neg h1, hgo, Nat.mod_eq_of_lt]
    have hlt : n < U32 * U32 := by unfold U32 U64 at *; omega
    exact Nat.sqrt_lt.2 hlt

lemma isqrtGo_succ (n f x : Nat) :
    isqrtGo n (f+1) x = if (x + n / x) / 2 < x then isqrtGo n f ((x + n / x) / 2) else x := rfl

/-- Fuel congruence: any fuel at least the current iterate yields the same
result.  Since the iterate strictly decreases on every executed pass, `x`
passes always suffice from iterate `x`. -/
lemma isqrtGo_fuel (n : Nat) :
    ∀ x fuel₁ fuel₂, x ≤ fuel₁ → x ≤ fuel₂ → isqrtGo n fuel₁ x = isqrtGo n fuel₂ x := by
  intro x
  induction x using Nat.strong_induction_on with
  | _ x ih =>
    intro fuel₁ fuel₂ h1 h2
    rcases Nat.eq_zero_or_pos x with hx0 | hxp
    · subst hx0
      have hz : ∀ f, isqrtGo n f 0 = 0 := by
        intro f
        cases f with
        | zero => rfl
        | succ f => rw [isqrtGo_succ]; simp
      rw [hz, hz]
    · obtain ⟨f₁, rfl⟩ : ∃ f₁, fuel₁ = f₁ + 1 := ⟨fuel₁ - 1, by omega⟩
      obtain ⟨f₂, rfl⟩ : ∃ f₂, fuel₂ = f₂ + 1 := ⟨fuel₂ - 1, by omega⟩
      rw [isqrtGo_succ, isqrtGo_succ]
      by_cases hy : (x + n / x) / 2 < x
      · rw [if_pos hy, if_pos hy]
        exact ih _ hy _ _ (by omega) (by omega)
      · rw [if_neg hy, if_neg hy]

lemma isqrt_lt_u32 (n : Nat) : isqrt n < U32 := by
  unfold isqrt
  exact Nat.mod_lt _ (by decide)

/-- Ramp state of the trapezoidal generator; mirrors
`struct stepper_ramp_trapezoidal_data`
(include/zephyr/drivers/stepper/stepper_ramp_trapezoidal.h).  The four
step counters are `uint32_t`, the intervals and the carried remainder are
`uint64_t`, `acceleration_idx` is `uint32_t`; fields hold the
corresponding machine values as naturals. -/
structure TrapData where
  pre_decel_steps_left : Nat
  accel_steps_left : Nat
  run_steps_left : Nat
  decel_steps_left : Nat
  run_interval : Nat
  first_acceleration_interval : Nat
  last_deceleration_interval : Nat
  interval_calculation_rest : Nat
  acceleration_idx : Nat
  current_interval : Nat
deriving Repr, DecidableEq

/-- Profile of the trapezoidal generator; mirrors
`struct stepper_ramp_trapezoidal_profile` (acceleration and deceleration
rates are `uint32_t` in steps/s^2, the cruise interval is `uint64_t`
nanoseconds). -/
structure TrapProfile where
  acceleration_rate : Nat
  run_interval : Nat
  deceleration_rate : Nat
deriving Repr, DecidableEq

/-- Initial interval c0 of the AVR446 ramp
(stepper_ramp_trapezoidal.c, lines 43-73):
`NSEC_PER_SEC * 676 / 1000 * isqrt(2 * factor^2 / acceleration) / factor`
with `factor = 3037000499`.  A zero acceleration is reported and mapped to
the return value 0.  No intermediate here can reach 2^64
(`676000000 * isqrt(..) < 2^63`), so no reduction is needed. -/
def avr446_start_interval (acceleration : Nat) : Nat :=
  if acceleration = 0 then 0
  else
    let factor : Nat := 3037000499
    NSEC_PER_SEC * 676 / 1000 * isqrt (2 * factor * factor / acceleration) / factor

/-- Closed-form step count `(f/interval)^2 / (2 * acceleration)`
(stepper_ramp_trapezoidal.c, lines 75-84).  The parameter `interval_in_ns`
is `uint32_t` (callers truncate their `uint64_t` intervals), the product
`acceleration * 2` is computed in 32 bits and the `uint32_t` return value
truncates the 64-bit quotient.  A zero (wrapped) divisor is division by
zero in C, modelled as `none`. -/
def avr446_acceleration_steps_needed (interval_in_ns acceleration : Nat) : Option Nat :=
  if interval_in_ns = 0 then some 0
  else
    let den := u32 (acceleration * 2)
    if den = 0 then none
    else some (u32 (NSEC_PER_SEC / interval_in_ns * (NSEC_PER_SEC / interval_in_ns) / den))

/-- One acceleration step (stepper_ramp_trapezoidal.c, lines 86-101).
`accel_steps_left--` happens first; the post-increment
`acceleration_idx++ == 0` tests the old index and stores the incremented
one; on the first step the remainder is cleared and the first interval is
emitted, otherwise the interval decreases by
`(2*current + rest) / (4*idx)` with the new remainder carried.  The
divisor uses the incremented index, wrapped in 32 bits; a wrapped-to-zero
divisor is undefined in C (`none`). -/
def avr446_calculate_next_accel_step (d0 : TrapData) : Option TrapData :=
  let d := { d0 with accel_steps_left := d0.accel_steps_left - 1 }
  if d.acceleration_idx = 0 then
    some { d with acceleration_idx := u32 (d.acceleration_idx + 1),
                  interval_calculation_rest := 0,
                  current_interval := d.first_acceleration_interval }
  else
    let idx' := u32 (d.acceleration_idx + 1)
    let numerator := u64 (2 * d.current_interval + d.interval_calculation_rest)
    let denominator := u32 (4 * idx')
    if denominator = 0 then none
    else
      some { d with acceleration_idx := idx',
                    interval_calculation_rest := numerator % denominator,
                    current_interval := u64 (d.current_interval + (U64 - numerator / denominator)) }

/-- One pre-deceleration step (stepper_ramp_trapezoidal.c, lines 103-112):
the interval rises by `(2*current + rest) / (4*(pre_decel + decel))` and
`pre_decel_steps_left` is decremented. -/
def avr446_calculate_next_pre_decel_step (d : TrapData) : Option TrapData :=
  let numerator := u64 (2 * d.current_interval + d.interval_calculation_rest)
  let denominator := u32 (4 * u32 (d.pre_decel_steps_left + d.decel_steps_left))
  if denominator = 0 then none
  else
    some { d with interval_calculation_rest := numerator % denominator,
                  current_interval := u64 (d.current_interval + numerator / denominator),
                  pre_decel_steps_left := d.pre_decel_steps_left - 1 }

/-- One deceleration step (stepper_ramp_trapezoidal.c, lines 114-127):
the pre-decrement `--decel_steps_left` runs first; on the final step the
interval is forced to `last_deceleration_interval`, otherwise it rises by
`(2*current + rest) / (4*decel_steps_left)` with the remainder carried. -/
def avr446_calculate_next_decel_step (d0 : TrapData) : Option TrapData :=
  let d := { d0 with decel_steps_left := d0.decel_steps_left - 1 }
  if d.decel_steps_left = 0 then
    some { d with interval_calculation_rest := 0,
                  current_interval := d.last_deceleration_interval }
  else
    let numerator := u64 (2 * d.current_interval + d.interval_calculation_rest)
    let denominator := u32 (4 * d.decel_steps_left)
    if denominator = 0 then none
    else
      some { d with interval_calculation_rest := numerator % denominator,
                    current_interval := u64 (d.current_interval + numerator / denominator) }

/-- Phase dispatcher `get_next_interval`
(stepper_ramp_trapezoidal.c, lines 254-274): pre-deceleration, then
acceleration, then cruise, then deceleration; when all counters are zero
the movement is finished and `current_interval` is set to 0.  The returned
interval is the updated `current_interval`. -/
def trap_get_next_interval (d : TrapData) : Option (TrapData × Nat) :=
  if 0 < d.pre_decel_steps_left then
    (avr446_calculate_next_pre_decel_step d).map fun d' => (d', d'.current_interval)
  else if 0 < d.accel_steps_left then
    (avr446_calculate_next_accel_step d).map fun d' => (d', d'.current_interval)
  else if 0 < d.run_steps_left then
    let d' := { d with run_steps_left := d.run_steps_left - 1,
                       current_interval := d.run_interval }
    some (d', d'.current_interval)
  else if 0 < d.decel_steps_left then
    (avr446_calculate_next_decel_step d).map fun d' => (d', d'.current_interval)
  else
    some ({ d with current_interval := 0 }, 0)

/-- Phase planner `prepare_move` (stepper_ramp_trapezoidal.c, lines
129-221).  Both `if` blocks of the C body are kept in source order: the
slow-down block runs when `current_interval` is non-zero and below the
requested cruise interval (note that it reads the *stale*
`decel_steps_left` when budgeting the cruise phase and overwrites it only
afterwards), the speed-up block when `current_interval` is zero or above
the cruise interval; when `current_interval` equals a non-zero cruise
interval neither block runs.  All counter arithmetic is `uint32_t`
(additions and subtractions reduced by `u32`, with `U32 - b` implementing
two's-complement subtraction for `b < U32`).  The return value is the
32-bit sum of the four phase counters. -/
def trap_prepare_move (p : TrapProfile) (d0 : TrapData) (step_count0 : Nat) :
    Option (TrapData × Nat) := do
  let step_count := u32 step_count0
  let d1 : TrapData := { d0 with
    first_acceleration_interval := avr446_start_interval p.acceleration_rate,
    last_deceleration_interval := avr446_start_interval p.deceleration_rate }
  let stop_lim ← avr446_acceleration_steps_needed (u32 d1.current_interval) p.deceleration_rate
  let accel_lim ← avr446_acceleration_steps_needed (u32 p.run_interval) p.acceleration_rate
  let decel_lim ← avr446_acceleration_steps_needed (u32 p.run_interval) p.deceleration_rate
  let d2 : TrapData :=
    if d1.current_interval ≠ 0 ∧ d1.current_interval < p.run_interval then
      let pre := u32 (stop_lim + (U32 - decel_lim))
      let total_decel_steps := u32 (pre + d1.decel_steps_left)
      let run := if total_decel_steps < step_count then step_count - total_decel_steps else 0
      { d1 with pre_decel_steps_left := pre, accel_steps_left := 0,
                run_steps_left := run, acceleration_idx := accel_lim,
                decel_steps_left := decel_lim }
    else d1
  let d3 : TrapData ←
    if d2.current_interval = 0 ∨ d2.current_interval > p.run_interval then
      let accel0 := u32 (accel_lim + (U32 - stop_lim))
      if step_count ≤ u32 (accel0 + decel_lim) then
        let rate_sum := u32 (p.deceleration_rate + p.acceleration_rate)
        if rate_sum = 0 then none
        else
          let decel := u32 (step_count * p.acceleration_rate) / rate_sum
          let accel := u32 (step_count + (U32 - decel))
          some { d2 with pre_decel_steps_left := 0, accel_steps_left := accel,
                         decel_steps_left := decel,
                         run_steps_left := u32 (u32 (step_count + (U32 - accel)) + (U32 - decel)),
                         acceleration_idx := 0 }
      else
        some { d2 with pre_decel_steps_left := 0, accel_steps_left := accel0,
                       decel_steps_left := decel_lim,
                       run_steps_left := u32 (u32 (step_count + (U32 - accel0)) + (U32 - decel_lim)),
                       acceleration_idx := 0 }
    else some d2
  let d4 : TrapData := { d3 with run_interval := p.run_interval }
  some (d4, u32 (d4.pre_decel_steps_left + d4.accel_steps_left +
                 d4.run_steps_left + d4.decel_steps_left))

/-- `prepare_stop` (stepper_ramp_trapezoidal.c, lines 223-252).  A zero
deceleration rate returns `-EINVAL` through the `uint64_t` return type,
i.e. the value `2^64 - 22`, with the data untouched; otherwise the
deceleration step count from the current interval is computed, the other
phase counters are cleared and the count is returned. -/
def trap_prepare_stop (p : TrapProfile) (d : TrapData) : Option (TrapData × Nat) :=
  if p.deceleration_rate = 0 then
    some (d, U64 - 22)
  else do
    let deceleration_steps ← avr446_acceleration_steps_needed (u32 d.current_interval)
                               p.deceleration_rate
    some ({ d with pre_decel_steps_left := 0, accel_steps_left := 0,
                   run_steps_left := 0, run_interval := 0,
                   decel_steps_left := deceleration_steps }, deceleration_steps)

/-- Zero-initialised ramp data, as laid out by the device-tree macro
`STEPPER_RAMP_TRAPEZOIDAL_DEFINE` (all fields of the static data struct
start at 0). -/
def freshTrapData : TrapData := ⟨0, 0, 0, 0, 0, 0, 0, 0, 0, 0⟩

/-- Ramp state of the constant-velocity generator; mirrors
`struct stepper_ramp_constant_data`. -/
structure ConstData where
  interval_ns : Nat
  steps_left : Nat
deriving Repr, DecidableEq

/-- Profile of the constant-velocity generator; mirrors
`struct stepper_ramp_constant_profile`. -/
structure ConstProfile where
  interval_ns : Nat
deriving Repr, DecidableEq

/-- `prepare_move` of the constant ramp (stepper_ramp_constant.c, lines
24-37): stores the (32-bit) step count and the profile interval and
returns the step count. -/
def const_prepare_move (p : ConstProfile) (_d : ConstData) (step_count0 : Nat) :
    ConstData × Nat :=
  let step_count := u32 step_count0
  ({ interval_ns := p.interval_ns, steps_left := step_count }, step_count)

/-- `prepare_stop` of the constant ramp (stepper_ramp_constant.c):
immediate stop, zero remaining steps. -/
def const_prepare_stop (d : ConstData) : ConstData × Nat :=
  ({ d with steps_left := 0 }, 0)

/-- `get_next_interval` of the constant ramp (stepper_ramp_constant.c):
the stored interval while steps remain, then 0. -/
def const_get_next_interval (d : ConstData) : ConstData × Nat :=
  if 0 < d.steps_left then ({ d with steps_left := d.steps_left - 1 }, d.interval_ns)
  else (d, 0)

def INT32_MAX : Int := 2147483647

def INT32_MIN : Int := -2147483648

/-- Event code `STEPPER_EVENT_STEPS_COMPLETED`
(include/zephyr/drivers/stepper.h). -/
def STEPPER_EVENT_STEPS_COMPLETED : Nat := 0

/-- Event code `STEPPER_EVENT_STOPPED`
(include/zephyr/drivers/stepper.h). -/
def STEPPER_EVENT_STOPPED : Nat := 4

/-- The `SIGN` macro of stepper_motion_controller.c:
`((x) < 0 ? -1 : 1)`; note `SIGN 0 = 1`. -/
def SIGN (x : Int) : Int := if x < 0 then -1 else 1

/-- Conversion of an unsigned 64-bit value to `int32_t` by two's-complement
truncation, as performed by the assignment
`data->relative_target_position = SIGN(..) * stop_steps_count`. -/
def toInt32 (n : Nat) : Int :=
  if n % U32 < 2147483648 then (n % U32 : Int) else (n % U32 : Int) - (U32 : Int)

/-- Product of the `int` value of `SIGN(direction)` with a `uint64_t`, as
computed in C: the `int` is first converted to `uint64_t` (so -1 becomes
`2^64 - 1`) and the product wraps modulo 2^64. -/
def sign_mul_u64 (s : Int) (n : Nat) : Nat :=
  if s < 0 then u64 ((U64 - 1) * n) else u64 n

/-- Ramp operations as seen by the controller through
`struct stepper_ramp_api` (stepper_ramp.h): `prepare_move`,
`prepare_stop` and `get_next_interval`, each returning the updated ramp
state together with the C `uint64_t` return value (`none` marks an
execution that is undefined in C). -/
structure stepper_ramp_api (σ : Type) where
  prepare_move : σ → Nat → Option (σ × Nat)
  prepare_stop : σ → Option (σ × Nat)
  get_next_interval : σ → Option (σ × Nat)

/-- Controller state (`struct stepper_motion_controller_data` as used by
stepper_motion_controller.c): bound ramp state, current direction
(+1 or -1), signed 32-bit relative target, and the armed timing-source
interval (0 when disarmed, mirroring `get_interval`).  `events` records
the motion events delivered through `callbacks->event` in order, and
`steps_taken` counts the successful hardware `step` callbacks; both model
the externally observable effects of the controller. -/
structure ControllerState (σ : Type) where
  ramp : σ
  direction : Int
  relative_target_position : Int
  timer_interval : Nat
  events : List Nat
  steps_taken : Nat
deriving Repr, DecidableEq

/-- `stepper_motion_controller_calculate_next_interval`
(stepper_motion_controller.c, lines 32-85): fetch the next ramp interval;
if positive, re-arm the timing source with it; otherwise stop the timing
source and, when the relative target is non-zero, set the direction to
its sign, prepare a move over its absolute value, fetch the first
interval of that plan and re-arm — else emit `STEPS_COMPLETED`. -/
def calculate_next_interval {σ : Type} (api : stepper_ramp_api σ)
    (c : ControllerState σ) : Option (ControllerState σ) := do
  let (r1, next_interval) ← api.get_next_interval c.ramp
  if 0 < next_interval then
    some { c with ramp := r1, timer_interval := next_interval }
  else
    if c.relative_target_position ≠ 0 then do
      let dir := SIGN c.relative_target_position
      let (r2, _cnt) ← api.prepare_move r1 c.relative_target_position.natAbs
      let (r3, ni2) ← api.get_next_interval r2
      some { c with ramp := r3, direction := dir, timer_interval := ni2 }
    else
      some { c with ramp := r1, timer_interval := 0,
                    events := c.events ++ [STEPPER_EVENT_STEPS_COMPLETED] }

/-- `stepper_motion_controller_perform_step`
(stepper_motion_controller.c, lines 87-105): invoke the hardware step
callback; on failure log and return early, leaving the relative target
untouched; on success decrement the relative target by the direction
unless it is one of the two infinite-move sentinels. -/
def perform_step {σ : Type} (step_ok : Bool) (c : ControllerState σ) : ControllerState σ :=
  if step_ok then
    { c with steps_taken := c.steps_taken + 1,
             relative_target_position :=
               if c.relative_target_position ≠ INT32_MAX ∧
                  c.relative_target_position ≠ INT32_MIN then
                 c.relative_target_position - c.direction
               else c.relative_target_position }
  else c

/-- `stepper_handle_timing_signal` (stepper_motion_controller.c, lines
107-118): one timing-source tick — perform a step (a failure is only
logged) and then compute and arm the next interval. -/
def handle_timing_signal {σ : Type} (api : stepper_ramp_api σ) (step_ok : Bool)
    (c : ControllerState σ) : Option (ControllerState σ) :=
  calculate_next_interval api (perform_step step_ok c)

/-- `stepper_motion_controller_move_by` (stepper_motion_controller.c,
lines 139-185), with a ramp bound.  If moving (timing source armed) in
the direction opposite to `SIGN micro_steps`, plan a decelerated stop;
otherwise set the direction and plan the move over `|micro_steps|`.
Either way the full signed `micro_steps` becomes the relative target; a
positive planned step count leads into `calculate_next_interval`, a zero
one emits `STEPS_COMPLETED` immediately. -/
def move_by {σ : Type} (api : stepper_ramp_api σ) (c : ControllerState σ)
    (micro_steps : Int) : Option (ControllerState σ) := do
  let is_moving := 0 < c.timer_interval
  let is_moving_in_same_direction := c.direction = SIGN micro_steps
  let (c1, movement_steps_count) ←
    if is_moving ∧ ¬ is_moving_in_same_direction then do
      let (r, cnt) ← api.prepare_stop c.ramp
      some ({ c with ramp := r, relative_target_position := micro_steps }, cnt)
    else do
      let (r, cnt) ← api.prepare_move c.ramp micro_steps.natAbs
      some ({ c with direction := SIGN micro_steps, ramp := r,
                     relative_target_position := micro_steps }, cnt)
  if 0 < movement_steps_count then
    calculate_next_interval api c1
  else
    some { c1 with events := c1.events ++ [STEPPER_EVENT_STEPS_COMPLETED] }

/-- `stepper_motion_controller_stop` (stepper_motion_controller.c, lines
208-231): plan a decelerated stop; a positive returned count (any
non-zero `uint64_t`, including an error value) sets the relative target
to `SIGN(direction) * count` truncated to `int32_t` and re-arms via
`calculate_next_interval`; a zero count clears the relative target and
stops the timing source. -/
def motion_stop {σ : Type} (api : stepper_ramp_api σ) (c : ControllerState σ) :
    Option (ControllerState σ) := do
  let (r, stop_steps_count) ← api.prepare_stop c.ramp
  if 0 < stop_steps_count then
    calculate_next_interval api
      { c with ramp := r,
               relative_target_position :=
                 toInt32 (sign_mul_u64 (SIGN c.direction) stop_steps_count) }
  else
    some { c with ramp := r, relative_target_position := 0, timer_interval := 0 }

/-- The trapezoidal ramp bound through the ramp API vtable
(`stepper_ramp_trapezoidal_api`). -/
def trapAPI (p : TrapProfile) : stepper_ramp_api TrapData :=
  ⟨trap_prepare_move p, trap_prepare_stop p, trap_get_next_interval⟩

/-- The constant ramp bound through the ramp API vtable
(`stepper_ramp_constant_api`); all three operations are total. -/
def constAPI (p : ConstProfile) : stepper_ramp_api ConstData :=
  ⟨fun d n => some (const_prepare_move p d n),
   fun d => some (const_prepare_stop d),
   fun d => some (const_get_next_interval d)⟩

/-- Controller state right after `stepper_motion_controller_init`:
direction positive, no target, timing source idle. -/
def initController {σ : Type} (r : σ) : ControllerState σ :=
  ⟨r, 1, 0, 0, [], 0⟩

/-- Iterated successful ticks of the timing source. -/
def ticksN {σ : Type} (api : stepper_ramp_api σ) : Nat → ControllerState σ →
    Option (ControllerState σ)
  | 0, c => some c
  | k+1, c => (handle_timing_signal api true c).bind (ticksN api k)

/-- Iterated `get_next_interval` on the bare trapezoidal ramp (states
only). -/
def trapIter : Nat → TrapData → Option TrapData
  | 0, d => some d
  | k+1, d => (trap_get_next_interval d).bind fun x => trapIter k x.1

/-- Iterated `get_next_interval` on the bare constant ramp. -/
def constIter : Nat → ConstData → ConstData
  | 0, d => d
  | k+1, d => constIter k (const_get_next_interval d).1

/-- Sum of the four phase counters of the trapezoidal ramp. -/
def totalSteps (d : TrapData) : Nat :=
  d.pre_decel_steps_left + d.accel_steps_left + d.run_steps_left + d.decel_steps_left

/-- One `get_next_interval` call consumed exactly one step of exactly the
first non-empty phase in the order pre-deceleration, acceleration,
cruise, deceleration, leaving the other three counters unchanged. -/
def phaseStep (d d' : TrapData) : Prop :=
  (0 < d.pre_decel_steps_left ∧ d'.pre_decel_steps_left + 1 = d.pre_decel_steps_left ∧
     d'.accel_steps_left = d.accel_steps_left ∧ d'.run_steps_left = d.run_steps_left ∧
     d'.decel_steps_left = d.decel_steps_left) ∨
  (d.pre_decel_steps_left = 0 ∧ 0 < d.accel_steps_left ∧ d'.pre_decel_steps_left = 0 ∧
     d'.accel_steps_left + 1 = d.accel_steps_left ∧ d'.run_steps_left = d.run_steps_left ∧
     d'.decel_steps_left = d.decel_steps_left) ∨
  (d.pre_decel_steps_left = 0 ∧ d.accel_steps_left = 0 ∧ 0 < d.run_steps_left ∧
     d'.pre_decel_steps_left = 0 ∧ d'.accel_steps_left = 0 ∧
     d'.run_steps_left + 1 = d.run_steps_left ∧ d'.decel_steps_left = d.decel_steps_left) ∨
  (d.pre_decel_steps_left = 0 ∧ d.accel_steps_left = 0 ∧ d.run_steps_left = 0 ∧
     0 < d.decel_steps_left ∧ d'.pre_decel_steps_left = 0 ∧ d'.accel_steps_left = 0 ∧
     d'.run_steps_left = 0 ∧ d'.decel_steps_left + 1 = d.decel_steps_left)

lemma u32_eq_of_lt {n : Nat} (h : n < U32) : u32 n = n := Nat.mod_eq_of_lt h

lemma u64_eq_of_lt {n : Nat} (h : n < U64) : u64 n = n := Nat.mod_eq_of_lt h

lemma u64_sub_eq {c q : Nat} (hq : q ≤ c) (hc : c < U64) : u64 (c + (U64 - q)) = c - q := by
  have hqU : q < U64 := lt_of_le_of_lt hq hc
  have h1 : c + (U64 - q) = (c - q) + U64 := by omega
  unfold u64
  rw [h1, Nat.add_mod_right]
  exact Nat.mod_eq_of_lt (by omega)

lemma u32_sub_eq {a b : Nat} (hb : b ≤ a) (ha : a < U32) : u32 (a + (U32 - b)) = a - b := by
  have h1 : a + (U32 - b) = (a - b) + U32 := by
    have : b < U32 := lt_of_le_of_lt hb ha
    omega
  unfold u32
  rw [h1, Nat.add_mod_right]
  exact Nat.mod_eq_of_lt (by omega)

def DecelInv (d : TrapData) : Prop :=
  1 ≤ d.current_interval ∧
  ((d.current_interval < 2^32 ∧ d.interval_calculation_rest < 2^32) ∨
   (∃ M C, d.decel_steps_left ≤ M ∧ M < 2^30 ∧ C < 2^44 ∧
      d.interval_calculation_rest < 4 * d.decel_steps_left ∧
      (d.current_interval + 8 * d.decel_steps_left)^2 * d.decel_steps_left^2 * (M+1)
        ≤ C^2 * M^2 * (d.decel_steps_left + 1)))

def TrapInv (d : TrapData) : Prop :=
  d.pre_decel_steps_left = 0 ∧
  d.accel_steps_left < 2^30 ∧ d.run_steps_left < 2^30 ∧ d.decel_steps_left < 2^30 ∧
  (0 < d.run_steps_left → 1 ≤ d.run_interval ∧ d.run_interval < 2^32) ∧
  (0 < d.decel_steps_left →
      1 ≤ d.last_deceleration_interval ∧ d.last_deceleration_interval < 2^30) ∧
  (0 < d.accel_steps_left →
      1 ≤ d.first_acceleration_interval ∧ d.first_acceleration_interval < 2^30 ∧
      d.acceleration_idx + d.accel_steps_left < 2^30 ∧
      ((d.acceleration_idx = 0 ∧ d.interval_calculation_rest = 0) ∨
       (1 ≤ d.acceleration_idx ∧ 1 ≤ d.current_interval ∧
        d.current_interval ≤ d.first_acceleration_interval ∧
        d.interval_calculation_rest < 4 * d.acceleration_idx))) ∧
  (d.accel_steps_left = 0 ∧ 0 < d.run_steps_left → d.interval_calculation_rest < 2^32) ∧
  (d.accel_steps_left = 0 ∧ d.run_steps_left = 0 ∧ 0 < d.decel_steps_left → DecelInv d)

lemma DecelInv_rest_lt (d : TrapData) (h : DecelInv d) (hmb : d.decel_steps_left < 2^30) :
    d.interval_calculation_rest < 2^32 := by
  obtain ⟨-, hcase⟩ := h
  rcases hcase with ⟨-, hr⟩ | ⟨M, C, -, -, -, hr, -⟩
  · exact hr
  · omega

lemma DecelInv_current_le (d : TrapData) (h : DecelInv d)
    (hmb : d.decel_steps_left < 2^30) : d.current_interval ≤ 2^60 := by
  obtain ⟨hc1, hcase⟩ := h
  rcases hcase with ⟨hc, -⟩ | ⟨M, C, hmM, hM, hC, hr, hpot⟩
  · calc d.current_interval ≤ 2^32 := le_of_lt hc
    _ ≤ 2^60 := by norm_num
  · set m := d.decel_steps_left with hm
    set X := d.current_interval + 8 * m with hX
    have hm1 : 1 ≤ m := by
      rcases Nat.eq_zero_or_pos m with h0 | h1
      · rw [h0] at hr; omega
      · exact h1
    have h1 : X^2 * m^2 * (M+1) ≤ C^2 * M^2 * (m+1) := hpot
    have h2 : C^2 * M^2 * (m+1) ≤ C^2 * M^2 * (2 * m^2) := by
      have : m + 1 ≤ 2 * m^2 := by nlinarith
      exact Nat.mul_le_mul_left _ this
    have h3 : X^2 * (M+1) * m^2 ≤ (2 * C^2 * M^2) * m^2 := by
      calc X^2 * (M+1) * m^2 = X^2 * m^2 * (M+1) := by ring
      _ ≤ C^2 * M^2 * (2 * m^2) := le_trans h1 h2
      _ = (2 * C^2 * M^2) * m^2 := by ring
    have h4 : X^2 * (M+1) ≤ 2 * C^2 * M^2 := by
      have hmp : 0 < m^2 := by positivity
      exact Nat.le_of_mul_le_mul_right h3 hmp
    have h5 : X^2 * (M+1) ≤ (2 * C^2 * M) * (M + 1) := by
      calc X^2 * (M+1) ≤ 2 * C^2 * M^2 := h4
      _ ≤ (2 * C^2 * M) * (M + 1) := by nlinarith
    have h6 : X^2 ≤ 2 * C^2 * M := Nat.le_of_mul_le_mul_right
      (by calc X^2 * (M+1) ≤ (2 * C^2 * M) * (M+1) := h5) (by omega)
    have hCb : C^2 ≤ (2^44 - 1)^2 := Nat.pow_le_pow_left (by omega) 2
    have h7 : X^2 < 2^119 := by
      calc X^2 ≤ 2 * C^2 * M := h6
      _ ≤ 2 * (2^44 - 1)^2 * (2^30 - 1) := by
            have hMb : M ≤ 2^30 - 1 := by omega
            exact Nat.mul_le_mul (Nat.mul_le_mul_left 2 hCb) hMb
      _ < 2^119 := by norm_num
    have h8 : X ≤ 2^60 := by
      by_contra hcon
      push_neg at hcon
      have : (2^60 + 1)^2 ≤ X^2 := Nat.pow_le_pow_left (by omega) 2
      have : (2^60 + 1)^2 < 2^119 := lt_of_le_of_lt this h7
      norm_num at this
    omega

lemma chat_step {c r k inc : Nat} (hr : r ≤ 4*k + 3) (hinc : 4*k*inc ≤ 2*c + r) (hk : 1 ≤ k) :
    2*k*(c + inc + 8*k) ≤ (2*k+1)*(c + 8*(k+1)) := by
  have h2 : 2*(2*k*inc) ≤ 2*c + 4*k + 3 := by
    calc 2*(2*k*inc) = 4*k*inc := by ring
    _ ≤ 2*c + r := hinc
    _ ≤ 2*c + 4*k + 3 := by omega
  have h3 : 2*k*inc ≤ c + 2*k + 1 := by omega
  nlinarith

lemma pot_step {X Y k M C : Nat} (hstep : 2*k*Y ≤ (2*k+1)*X)
    (hIH : X^2 * (k+1)^2 * (M+1) ≤ C^2 * M^2 * (k+2)) :
    Y^2 * k^2 * (M+1) ≤ C^2 * M^2 * (k+1) := by
  have h1 : (2*k*Y)^2 ≤ ((2*k+1)*X)^2 := Nat.pow_le_pow_left hstep 2
  have hpoly : (2*k+1)^2*(k+2) ≤ 4*(k+1)^3 := by nlinarith
  have key : (4*(k+1)^2*(k+2)) * (Y^2*k^2*(M+1)) ≤ (4*(k+1)^2*(k+2)) * (C^2*M^2*(k+1)) := by
    calc (4*(k+1)^2*(k+2)) * (Y^2*k^2*(M+1))
        = ((2*k*Y)^2) * ((k+1)^2*(k+2)*(M+1)) := by ring
      _ ≤ ((2*k+1)*X)^2 * ((k+1)^2*(k+2)*(M+1)) := Nat.mul_le_mul_right _ h1
      _ = ((2*k+1)^2*(k+2)) * (X^2*(k+1)^2*(M+1)) := by ring
      _ ≤ ((2*k+1)^2*(k+2)) * (C^2*M^2*(k+2)) := Nat.mul_le_mul_left _ hIH
      _ = ((2*k+1)^2*(k+2)) * ((k+2) * (C^2*M^2)) := by ring
      _ ≤ (4*(k+1)^3) * ((k+2) * (C^2*M^2)) := Nat.mul_le_mul_right _ hpoly
      _ = (4*(k+1)^2*(k+2)) * (C^2*M^2*(k+1)) := by ring
  exact Nat.le_of_mul_le_mul_left key (by positivity)

lemma decel_step_eq (d : TrapData) (h1 : d.decel_steps_left - 1 ≠ 0)
    (hden : u32 (4 * (d.decel_steps_left - 1)) ≠ 0) :
    avr446_calculate_next_decel_step d = some { d with
      decel_steps_left := d.decel_steps_left - 1,
      interval_calculation_rest :=
        u64 (2*d.current_interval + d.interval_calculation_rest) %
          u32 (4 * (d.decel_steps_left - 1)),
      current_interval :=
        u64 (d.current_interval +
          u64 (2*d.current_interval + d.interval_calculation_rest) /
            u32 (4 * (d.decel_steps_left - 1))) } := by
  simp [avr446_calculate_next_decel_step, h1, hden]

lemma decel_final_eq (d : TrapData) (h1 : d.decel_steps_left - 1 = 0) :
    avr446_calculate_next_decel_step d = some { d with
      decel_steps_left := 0,
      interval_calculation_rest := 0,
      current_interval := d.last_deceleration_interval } := by
  simp [avr446_calculate_next_decel_step, h1]

lemma decel_inv_step (d : TrapData) (hD : DecelInv d) (hm2 : 2 ≤ d.decel_steps_left)
    (hmb : d.decel_steps_left < 2^30) :
    ∃ d', avr446_calculate_next_decel_step d = some d' ∧
      d'.pre_decel_steps_left = d.pre_decel_steps_left ∧
      d'.accel_steps_left = d.accel_steps_left ∧
      d'.run_steps_left = d.run_steps_left ∧
      d'.decel_steps_left + 1 = d.decel_steps_left ∧
      d'.run_interval = d.run_interval ∧
      d'.first_acceleration_interval = d.first_acceleration_interval ∧
      d'.last_deceleration_interval = d.last_deceleration_interval ∧
      d.current_interval ≤ d'.current_interval ∧
      DecelInv d' := by
  have hc1 : 1 ≤ d.current_interval := hD.1
  have hcb : d.current_interval ≤ 2^60 := DecelInv_current_le d hD hmb
  have hrb : d.interval_calculation_rest < 2^32 := DecelInv_rest_lt d hD hmb
  have hnum_lt : 2 * d.current_interval + d.interval_calculation_rest < U64 := by
    unfold U64; omega
  have hden_lt : 4 * (d.decel_steps_left - 1) < U32 := by unfold U32; omega
  have heq := decel_step_eq d (by omega) (by rw [u32_eq_of_lt hden_lt]; omega)
  rw [u64_eq_of_lt hnum_lt, u32_eq_of_lt hden_lt] at heq
  obtain ⟨k, hk⟩ : ∃ v, v = d.decel_steps_left - 1 := ⟨_, rfl⟩
  rw [← hk] at heq
  have hk1 : 1 ≤ k := by omega
  have hkb : k < 2^30 := by omega
  have hdm : d.decel_steps_left = k + 1 := by omega
  obtain ⟨inc, hinc⟩ : ∃ v,
      v = (2 * d.current_interval + d.interval_calculation_rest) / (4 * k) := ⟨_, rfl⟩
  rw [← hinc] at heq
  obtain ⟨rest', hrest⟩ : ∃ v,
      v = (2 * d.current_interval + d.interval_calculation_rest) % (4 * k) := ⟨_, rfl⟩
  rw [← hrest] at heq
  have h4k : 4*k*inc ≤ 2 * d.current_interval + d.interval_calculation_rest := by
    rw [hinc]
    calc 4*k*((2 * d.current_interval + d.interval_calculation_rest) / (4*k))
        = ((2 * d.current_interval + d.interval_calculation_rest) / (4*k)) * (4*k) := by ring
    _ ≤ 2 * d.current_interval + d.interval_calculation_rest := Nat.div_mul_le_self _ _
  have hinc_b : inc ≤ 2^59 + 2^30 := by
    rw [hinc]
    have h1 : (2 * d.current_interval + d.interval_calculation_rest) / (4*k)
        ≤ (2 * d.current_interval + d.interval_calculation_rest) / 4 :=
      Nat.div_le_div_left (by omega) (by omega)
    have h2 : (2 * d.current_interval + d.interval_calculation_rest) / 4
        ≤ (2 * 2^60 + 2^32) / 4 := Nat.div_le_div_right (by omega)
    norm_num at h2
    omega
  have hcinc : d.current_interval + inc < U64 := by unfold U64; omega
  rw [u64_eq_of_lt hcinc] at heq
  have hrest_b : rest' < 4*k := by
    rw [hrest]
    exact Nat.mod_lt _ (by omega)
  refine ⟨_, heq, rfl, rfl, rfl, ?_, rfl, rfl, rfl, ?_, ?_⟩
  · show k + 1 = d.decel_steps_left
    omega
  · show d.current_interval ≤ d.current_interval + inc
    omega
  · constructor
    · show 1 ≤ d.current_interval + inc
      omega
    · right
      obtain ⟨-, hcase⟩ := hD
      rcases hcase with ⟨hcE, hrE⟩ | ⟨M, C, hmM, hMb, hCb, hrP, hpot⟩
      · -- entry case: install the potential with M := k, C := current + inc + 8*k
        refine ⟨k, d.current_interval + inc + 8*k, le_rfl, hkb, ?_, hrest_b, le_rfl⟩
        have hinc2 : inc ≤ 2^31 + 2^30 := by
          rw [hinc]
          have h1 : (2 * d.current_interval + d.interval_calculation_rest) / (4*k)
              ≤ (2 * d.current_interval + d.interval_calculation_rest) / 4 :=
            Nat.div_le_div_left (by omega) (by omega)
          have h2 : (2 * d.current_interval + d.interval_calculation_rest) / 4
              ≤ (2 * 2^32 + 2^32) / 4 := Nat.div_le_div_right (by omega)
          norm_num at h2
          omega
        show d.current_interval + inc + 8*k < 2^44
        omega
      · -- potential case: one pot_step with the same M and C
        have hrP' : d.interval_calculation_rest ≤ 4*k + 3 := by omega
        have hstep : 2*k*((d.current_interval + inc) + 8*k)
            ≤ (2*k+1)*(d.current_interval + 8*(k+1)) := by
          have hcs := chat_step hrP' h4k hk1
          calc 2*k*((d.current_interval + inc) + 8*k)
              = 2*k*(d.current_interval + inc + 8*k) := by ring
          _ ≤ (2*k+1)*(d.current_interval + 8*(k+1)) := hcs
        have hpot' : (d.current_interval + 8*(k+1))^2 * (k+1)^2 * (M+1)
            ≤ C^2 * M^2 * (k+2) := by
          rw [hdm] at hpot
          calc (d.current_interval + 8*(k+1))^2 * (k+1)^2 * (M+1)
              ≤ C^2 * M^2 * ((k+1) + 1) := hpot
          _ = C^2 * M^2 * (k+2) := by ring_nf
        refine ⟨M, C, by show k ≤ M; omega, hMb, hCb, by show rest' < 4*k; omega, ?_⟩
        show ((d.current_interval + inc) + 8*k)^2 * k^2 * (M+1) ≤ C^2 * M^2 * (k+1)
        exact pot_step hstep hpot'

lemma accel_step0_eq (d : TrapData) (h : d.acceleration_idx = 0) :
    avr446_calculate_next_accel_step d = some { d with
      accel_steps_left := d.accel_steps_left - 1,
      acceleration_idx := u32 (d.acceleration_idx + 1),
      interval_calculation_rest := 0,
      current_interval := d.first_acceleration_interval } := by
  simp [avr446_calculate_next_accel_step, h]

lemma accel_step_eq (d : TrapData) (h : d.acceleration_idx ≠ 0)
    (hden : u32 (4 * u32 (d.acceleration_idx + 1)) ≠ 0) :
    avr446_calculate_next_accel_step d = some { d with
      accel_steps_left := d.accel_steps_left - 1,
      acceleration_idx := u32 (d.acceleration_idx + 1),
      interval_calculation_rest :=
        u64 (2 * d.current_interval + d.interval_calculation_rest) %
          u32 (4 * u32 (d.acceleration_idx + 1)),
      current_interval :=
        u64 (d.current_interval +
          (U64 - u64 (2 * d.current_interval + d.interval_calculation_rest) /
            u32 (4 * u32 (d.acceleration_idx + 1)))) } := by
  simp [avr446_calculate_next_accel_step, h, hden]

lemma DecelInv_mk (pre accel run decel ri fa ld rest idx cur : Nat)
    (h1 : 1 ≤ cur)
    (h2 : (cur < 2^32 ∧ rest < 2^32) ∨
      (∃ M C, decel ≤ M ∧ M < 2^30 ∧ C < 2^44 ∧ rest < 4*decel ∧
        (cur + 8*decel)^2 * decel^2 * (M+1) ≤ C^2*M^2*(decel+1))) :
    DecelInv ⟨pre, accel, run, decel, ri, fa, ld, rest, idx, cur⟩ := ⟨h1, h2⟩

lemma TrapInv_mk (pre accel run decel ri fa ld rest idx cur : Nat)
    (hpre : pre = 0) (h2 : accel < 2^30) (h3 : run < 2^30) (h4 : decel < 2^30)
    (h5 : 0 < run → 1 ≤ ri ∧ ri < 2^32)
    (h6 : 0 < decel → 1 ≤ ld ∧ ld < 2^30)
    (h7 : 0 < accel → 1 ≤ fa ∧ fa < 2^30 ∧ idx + accel < 2^30 ∧
        ((idx = 0 ∧ rest = 0) ∨ (1 ≤ idx ∧ 1 ≤ cur ∧ cur ≤ fa ∧ rest < 4*idx)))
    (h8 : accel = 0 ∧ 0 < run → rest < 2^32)
    (h9 : accel = 0 ∧ run = 0 ∧ 0 < decel →
        DecelInv ⟨pre, accel, run, decel, ri, fa, ld, rest, idx, cur⟩) :
    TrapInv ⟨pre, accel, run, decel, ri, fa, ld, rest, idx, cur⟩ :=
  ⟨hpre, h2, h3, h4, h5, h6, h7, h8, h9⟩

lemma inv_step (d : TrapData) (hI : TrapInv d) (hpos : 0 < totalSteps d) :
    ∃ d' i, trap_get_next_interval d = some (d', i) ∧ 0 < i ∧ i = d'.current_interval ∧
      TrapInv d' ∧ totalSteps d' + 1 = totalSteps d ∧ phaseStep d d' := by
  obtain ⟨hpre, hab, hrunb, hdecb, hruni, hdeci, haccel, hrunrest, hdecinv⟩ := hI
  unfold trap_get_next_interval
  rw [if_neg (by omega)]
  by_cases ha : 0 < d.accel_steps_left
  · -- acceleration phase
    rw [if_pos ha]
    obtain ⟨hf1, hfb, hidxs, hdisj⟩ := haccel ha
    rcases hdisj with ⟨hidx0, hrest0⟩ | ⟨hidx1, hcur1, hcf, hrest⟩
    · -- first acceleration step: emit the first interval
      have heq := accel_step0_eq d hidx0
      have hu1 : u32 (d.acceleration_idx + 1) = 1 := by
        rw [hidx0]
        unfold u32 U32
        norm_num
      rw [hu1] at heq
      rw [heq]
      refine ⟨_, _, rfl, ?_, rfl, ?_, ?_, ?_⟩
      · show 0 < d.first_acceleration_interval
        omega
      · refine TrapInv_mk _ _ _ _ _ _ _ _ _ _ hpre (by omega) (by omega) (by omega)
          (fun h => hruni h) (fun h => hdeci h) ?_ (fun h => by omega) ?_
        · intro h
          refine ⟨hf1, hfb, by omega, Or.inr ⟨by omega, hf1, le_rfl, by omega⟩⟩
        · intro h
          exact DecelInv_mk _ _ _ _ _ _ _ _ _ _ hf1 (Or.inl ⟨by omega, by omega⟩)
      · unfold totalSteps
        simp
        omega
      · right; left
        refine ⟨hpre, ha, hpre, by simp; omega, by simp, by simp⟩
    · -- subsequent acceleration step: interval decreases, stays positive
      have hidxb : d.acceleration_idx + 1 < 2^30 := by omega
      have hu32i : u32 (d.acceleration_idx + 1) = d.acceleration_idx + 1 :=
        u32_eq_of_lt (by unfold U32; omega)
      have hden_lt : 4 * (d.acceleration_idx + 1) < U32 := by unfold U32; omega
      have hdenne : u32 (4 * u32 (d.acceleration_idx + 1)) ≠ 0 := by
        rw [hu32i, u32_eq_of_lt hden_lt]
        omega
      have heq := accel_step_eq d (by omega) hdenne
      rw [hu32i, u32_eq_of_lt hden_lt] at heq
      have hcb : d.current_interval < 2^30 := lt_of_le_of_lt hcf hfb
      have hnum_lt : 2 * d.current_interval + d.interval_calculation_rest < U64 := by
        unfold U64
        omega
      rw [u64_eq_of_lt hnum_lt] at heq
      obtain ⟨inc, hinc⟩ : ∃ v,
          v = (2 * d.current_interval + d.interval_calculation_rest) /
              (4 * (d.acceleration_idx + 1)) := ⟨_, rfl⟩
      rw [← hinc] at heq
      obtain ⟨rest', hrestdef⟩ : ∃ v,
          v = (2 * d.current_interval + d.interval_calculation_rest) %
              (4 * (d.acceleration_idx + 1)) := ⟨_, rfl⟩
      rw [← hrestdef] at heq
      have hinc_lt : inc < d.current_interval := by
        rw [hinc]
        rw [Nat.div_lt_iff_lt_mul (by omega)]
        have h1 : 4 * d.acceleration_idx ≤ 4 * d.acceleration_idx * d.current_interval :=
          Nat.le_mul_of_pos_right _ (by omega)
        nlinarith
      have hsub := u64_sub_eq (le_of_lt hinc_lt)
        (show d.current_interval < U64 by unfold U64; omega)
      rw [hsub] at heq
      have hrest_b : rest' < 4 * (d.acceleration_idx + 1) := by
        rw [hrestdef]
        exact Nat.mod_lt _ (by omega)
      rw [heq]
      refine ⟨_, _, rfl, ?_, rfl, ?_, ?_, ?_⟩
      · show 0 < d.current_interval - inc
        omega
      · refine TrapInv_mk _ _ _ _ _ _ _ _ _ _ hpre (by omega) (by omega) (by omega)
          (fun h => hruni h) (fun h => hdeci h) ?_ (fun h => by omega) ?_
        · intro h
          refine ⟨hf1, hfb, by omega, Or.inr ⟨by omega, by omega, by omega, by omega⟩⟩
        · intro h
          refine DecelInv_mk _ _ _ _ _ _ _ _ _ _ (by omega) (Or.inl ⟨by omega, by omega⟩)
      · unfold totalSteps
        simp
        omega
      · right; left
        refine ⟨hpre, ha, hpre, by simp; omega, by simp, by simp⟩
  · rw [if_neg ha]
    by_cases hr : 0 < d.run_steps_left
    · -- cruise phase
      rw [if_pos hr]
      obtain ⟨hri1, hrib⟩ := hruni hr
      have hrest32 : d.interval_calculation_rest < 2^32 := hrunrest ⟨by omega, hr⟩
      refine ⟨_, _, rfl, ?_, rfl, ?_, ?_, ?_⟩
      · show 0 < d.run_interval
        omega
      · refine TrapInv_mk _ _ _ _ _ _ _ _ _ _ hpre (by omega) (by omega) (by omega)
          (fun h => ⟨hri1, hrib⟩) (fun h => hdeci h) (fun h => by omega)
          (fun h => hrest32) ?_
        intro h
        exact DecelInv_mk _ _ _ _ _ _ _ _ _ _ hri1 (Or.inl ⟨hrib, hrest32⟩)
      · unfold totalSteps
        simp
        omega
      · right; right; left
        refine ⟨hpre, by omega, hr, hpre, by simp; omega, by simp; omega, by simp⟩
    · -- deceleration phase
      rw [if_neg hr]
      have hd : 0 < d.decel_steps_left := by
        unfold totalSteps at hpos
        omega
      rw [if_pos hd]
      have hDI : DecelInv d := hdecinv ⟨by omega, by omega, hd⟩
      obtain ⟨hl1, hlb⟩ := hdeci hd
      by_cases hm1 : d.decel_steps_left = 1
      · -- final deceleration step: the last interval is emitted
        have heq := decel_final_eq d (by omega)
        rw [heq]
        refine ⟨_, _, rfl, ?_, rfl, ?_, ?_, ?_⟩
        · show 0 < d.last_deceleration_interval
          omega
        · refine TrapInv_mk _ _ _ _ _ _ _ _ _ _ hpre (by omega) (by omega) (by omega)
            (fun h => hruni h) (fun h => by omega) (fun h => by omega)
            (fun h => by omega) (fun h => by omega)
        · unfold totalSteps
          simp
          omega
        · right; right; right
          refine ⟨hpre, by omega, by omega, hd, hpre, by simp; omega, by simp; omega, by simp; omega⟩
      · -- non-final deceleration step
        obtain ⟨d', heq, hp1, hp2, hp3, hp4, hp5, hp6, hp7, hp8, hp9⟩ :=
          decel_inv_step d hDI (by omega) hdecb
        rw [heq]
        refine ⟨_, _, rfl, ?_, rfl, ?_, ?_, ?_⟩
        · show 0 < d'.current_interval
          have := hp9.1
          omega
        · refine ⟨by omega, by omega, by omega, by omega, ?_, ?_, ?_, ?_, ?_⟩
          · intro h
            rw [hp3] at h
            exact absurd h hr
          · intro h
            rw [hp7]
            exact ⟨hl1, hlb⟩
          · intro h
            rw [hp2] at h
            exact absurd h ha
          · intro h
            rw [hp3] at h
            exact absurd h.2 hr
          · intro h
            exact hp9
        · unfold totalSteps
          omega
        · right; right; right
          refine ⟨hpre, by omega, by omega, hd, by omega, by omega, by omega, by omega⟩

lemma inv_done (d : TrapData) (h : totalSteps d = 0) :
    trap_get_next_interval d = some ({ d with current_interval := 0 }, 0) := by
  unfold totalSteps at h
  unfold trap_get_next_interval
  rw [if_neg (by omega), if_neg (by omega), if_neg (by omega), if_neg (by omega)]

lemma inv_iter : ∀ (k : Nat) (d : TrapData), TrapInv d → k ≤ totalSteps d →
    ∃ dk, trapIter k d = some dk ∧ TrapInv dk ∧ totalSteps dk + k = totalSteps d := by
  intro k
  induction k with
  | zero => exact fun d hI _ => ⟨d, rfl, hI, by omega⟩
  | succ n ih =>
    intro d hI hk
    obtain ⟨d', i, heq, -, -, hI', htot, -⟩ := inv_step d hI (by omega)
    obtain ⟨dk, hiter, hIk, htotk⟩ := ih d' hI' (by omega)
    refine ⟨dk, ?_, hIk, by omega⟩
    show (trap_get_next_interval d).bind (fun x => trapIter n x.1) = some dk
    rw [heq]
    exact hiter

lemma start_interval_bounds (a : Nat) (h1 : 1 ≤ a) (h2 : a < U32) :
    1 ≤ avr446_start_interval a ∧ avr446_start_interval a < 2^30 := by
  unfold avr446_start_interval
  rw [if_neg (by omega)]
  simp only
  have hQle : 2 * 3037000499 * 3037000499 / a ≤ 2 * 3037000499 * 3037000499 :=
    Nat.div_le_self _ _
  have hQU64 : 2 * 3037000499 * 3037000499 / a < U64 := by
    have : (2 : Nat) * 3037000499 * 3037000499 < U64 := by norm_num [U64]
    omega
  have hQge : 4294967294 ≤ 2 * 3037000499 * 3037000499 / a := by
    have h3 : 2 * 3037000499 * 3037000499 / a ≥
        2 * 3037000499 * 3037000499 / (U32 - 1) := by
      apply Nat.div_le_div_left
      · omega
      · omega
    have h4 : (2 : Nat) * 3037000499 * 3037000499 / (U32 - 1) = 4294967294 := by
      norm_num [U32]
    omega
  have hsq := isqrt_eq_sqrt _ hQU64
  constructor
  · -- lower bound
    have h65535 : 65535 ≤ isqrt (2 * 3037000499 * 3037000499 / a) := by
      rw [hsq]
      apply Nat.le_sqrt.2
      calc (65535 : Nat) * 65535 = 4294836225 := by norm_num
      _ ≤ 4294967294 := by norm_num
      _ ≤ _ := hQge
    have hmul : NSEC_PER_SEC * 676 / 1000 * 65535 ≤
        NSEC_PER_SEC * 676 / 1000 * isqrt (2 * 3037000499 * 3037000499 / a) :=
      Nat.mul_le_mul_left _ h65535
    have hdv : NSEC_PER_SEC * 676 / 1000 * 65535 / 3037000499 ≤
        NSEC_PER_SEC * 676 / 1000 * isqrt (2 * 3037000499 * 3037000499 / a) / 3037000499 :=
      Nat.div_le_div_right hmul
    have hone : (1 : Nat) ≤ NSEC_PER_SEC * 676 / 1000 * 65535 / 3037000499 := by
      norm_num [NSEC_PER_SEC]
    omega
  · -- upper bound
    have hi : isqrt (2 * 3037000499 * 3037000499 / a) ≤ U32 - 1 := by
      have := isqrt_lt_u32 (2 * 3037000499 * 3037000499 / a)
      omega
    have hmul : NSEC_PER_SEC * 676 / 1000 * isqrt (2 * 3037000499 * 3037000499 / a) ≤
        NSEC_PER_SEC * 676 / 1000 * (U32 - 1) := Nat.mul_le_mul_left _ hi
    have hdv : NSEC_PER_SEC * 676 / 1000 * isqrt (2 * 3037000499 * 3037000499 / a) / 3037000499 ≤
        NSEC_PER_SEC * 676 / 1000 * (U32 - 1) / 3037000499 := Nat.div_le_div_right hmul
    have : NSEC_PER_SEC * 676 / 1000 * (U32 - 1) / 3037000499 < 2^30 := by
      norm_num [NSEC_PER_SEC, U32]
    omega

lemma steps_needed_at_zero (r : Nat) :
    avr446_acceleration_steps_needed (u32 0) r = some 0 := by
  unfold avr446_acceleration_steps_needed u32
  norm_num

lemma steps_needed_eval (i r : Nat) (hi : i ≠ 0) (hi2 : i < U32) (hr1 : 1 ≤ r)
    (hr2 : r < 2^31) :
    avr446_acceleration_steps_needed (u32 i) r =
      some (u32 (NSEC_PER_SEC / i * (NSEC_PER_SEC / i) / (r * 2))) := by
  unfold avr446_acceleration_steps_needed
  rw [u32_eq_of_lt hi2]
  rw [if_neg hi]
  have h2 : u32 (r * 2) = r * 2 := u32_eq_of_lt (by unfold U32; omega)
  simp only [h2]
  rw [if_neg (by omega)]

lemma prepare_from_rest (p : TrapProfile) (N : Nat)
    (ha1 : 1 ≤ p.acceleration_rate) (ha2 : p.acceleration_rate < 2^31)
    (hd1 : 1 ≤ p.deceleration_rate) (hd2 : p.deceleration_rate < 2^31)
    (hri1 : 1 ≤ p.run_interval) (hri2 : p.run_interval < U32)
    (hN1 : 1 ≤ N) (hN2 : N < 2^30)
    (hNa : N * p.acceleration_rate < U32)
    (hAD : u32 (NSEC_PER_SEC / p.run_interval * (NSEC_PER_SEC / p.run_interval) /
             (p.acceleration_rate * 2)) +
           u32 (NSEC_PER_SEC / p.run_interval * (NSEC_PER_SEC / p.run_interval) /
             (p.deceleration_rate * 2)) < U32) :
    ∃ d0, trap_prepare_move p freshTrapData N = some (d0, N) ∧ TrapInv d0 ∧
      totalSteps d0 = N := by
  obtain ⟨AL, hAL⟩ : ∃ v, v = u32 (NSEC_PER_SEC / p.run_interval *
      (NSEC_PER_SEC / p.run_interval) / (p.acceleration_rate * 2)) := ⟨_, rfl⟩
  obtain ⟨DL, hDL⟩ : ∃ v, v = u32 (NSEC_PER_SEC / p.run_interval *
      (NSEC_PER_SEC / p.run_interval) / (p.deceleration_rate * 2)) := ⟨_, rfl⟩
  have hALb : AL < U32 := by rw [hAL]; exact Nat.mod_lt _ (by decide)
  have hDLb : DL < U32 := by rw [hDL]; exact Nat.mod_lt _ (by decide)
  have hADb : AL + DL < U32 := by rw [hAL, hDL]; exact hAD
  obtain ⟨fa1, fab⟩ := start_interval_bounds p.acceleration_rate ha1 (by unfold U32; omega)
  obtain ⟨ld1, ldb⟩ := start_interval_bounds p.deceleration_rate hd1 (by unfold U32; omega)
  have hNu : u32 N = N := u32_eq_of_lt (by unfold U32; omega)
  have hs0 := steps_needed_at_zero p.deceleration_rate
  have hsa := steps_needed_eval p.run_interval p.acceleration_rate (by omega) hri2 ha1 ha2
  have hsd := steps_needed_eval p.run_interval p.deceleration_rate (by omega) hri2 hd1 hd2
  rw [← hAL] at hsa
  rw [← hDL] at hsd
  have haccel0 : u32 (AL + (U32 - 0)) = AL := by
    have h0 : AL + (U32 - 0) = AL + U32 := by omega
    rw [h0]
    unfold u32
    rw [Nat.add_mod_right]
    exact Nat.mod_eq_of_lt hALb
  have hADu : u32 (AL + DL) = AL + DL := u32_eq_of_lt hADb
  unfold trap_prepare_move
  rw [hNu]
  simp only [freshTrapData, hs0, hsa, hsd, Option.bind_eq_bind, Option.some_bind,
    ne_eq, not_true_eq_false, false_and, if_false, eq_self_iff_true, true_or, if_true,
    haccel0, hADu]
  by_cases hshort : N ≤ AL + DL
  · -- short move: no cruise, split N between acceleration and deceleration
    rw [if_pos hshort]
    have hrs : u32 (p.deceleration_rate + p.acceleration_rate) =
        p.deceleration_rate + p.acceleration_rate :=
      u32_eq_of_lt (by unfold U32; omega)
    rw [hrs, if_neg (by omega)]
    have hNau : u32 (N * p.acceleration_rate) = N * p.acceleration_rate :=
      u32_eq_of_lt hNa
    rw [hNau]
    obtain ⟨DC, hDC⟩ : ∃ v, v = N * p.acceleration_rate /
        (p.deceleration_rate + p.acceleration_rate) := ⟨_, rfl⟩
    rw [← hDC]
    have hDCN : DC < N := by
      rw [hDC]
      rw [Nat.div_lt_iff_lt_mul (by omega)]
      calc N * p.acceleration_rate <
          N * (p.acceleration_rate + 1) := by nlinarith
      _ ≤ N * (p.deceleration_rate + p.acceleration_rate) := by
            apply Nat.mul_le_mul_left
            omega
    have haccelu : u32 (N + (U32 - DC)) = N - DC :=
      u32_sub_eq (by omega) (by unfold U32; omega)
    rw [haccelu]
    have hrun1 : u32 (N + (U32 - (N - DC))) = DC := by
      have h1 := u32_sub_eq (show N - DC ≤ N by omega) (show N < U32 by unfold U32; omega)
      have h2 : N - (N - DC) = DC := by omega
      rw [h1, h2]
    rw [hrun1]
    have hrun2 : u32 (DC + (U32 - DC)) = 0 := by
      have h1 : DC + (U32 - DC) = U32 := by
        have : DC < U32 := by unfold U32; omega
        omega
      rw [h1]
      unfold u32
      exact Nat.mod_self U32
    rw [hrun2]
    have hsum : u32 (0 + (N - DC) + 0 + DC) = N := by
      have h1 : 0 + (N - DC) + 0 + DC = N := by omega
      rw [h1, hNu]
    simp only [hsum]
    refine ⟨_, rfl, ?_, ?_⟩
    · refine TrapInv_mk _ _ _ _ _ _ _ _ _ _ rfl (by omega) (by omega) (by omega)
        (fun h => by omega) (fun h => ⟨ld1, ldb⟩) ?_ (fun h => by omega)
        (fun h => by omega)
      intro h
      exact ⟨fa1, fab, by omega, Or.inl ⟨rfl, rfl⟩⟩
    · unfold totalSteps
      simp
      omega
  · -- long move: cruise phase present
    rw [if_neg hshort]
    have hALN : AL < N := by omega
    have haccelu : u32 (N + (U32 - AL)) = N - AL :=
      u32_sub_eq (by omega) (by unfold U32; omega)
    rw [haccelu]
    have hrunu : u32 (N - AL + (U32 - DL)) = N - AL - DL :=
      u32_sub_eq (by omega) (by unfold U32; omega)
    rw [hrunu]
    have hsum : u32 (0 + AL + (N - AL - DL) + DL) = N := by
      have h1 : 0 + AL + (N - AL - DL) + DL = N := by omega
      rw [h1, hNu]
    simp only [hsum]
    refine ⟨_, rfl, ?_, ?_⟩
    · refine TrapInv_mk _ _ _ _ _ _ _ _ _ _ rfl (by omega) (by omega) (by omega)
        (fun h => ⟨hri1, by unfold U32 at hri2; omega⟩) (fun h => ⟨ld1, ldb⟩) ?_
        (fun h => by omega) (fun h => by omega)
      intro h
      exact ⟨fa1, fab, by omega, Or.inl ⟨rfl, rfl⟩⟩
    · unfold totalSteps
      simp
      omega

lemma const_iter_val (ivl : Nat) : ∀ k N, k ≤ N → constIter k ⟨ivl, N⟩ = ⟨ivl, N - k⟩ := by
  intro k
  induction k with
  | zero =>
    intro N h
    show (⟨ivl, N⟩ : ConstData) = ⟨ivl, N - 0⟩
    congr 1
  | succ n ih =>
    intro N h
    have hnext : (const_get_next_interval ⟨ivl, N⟩).1 = ⟨ivl, N - 1⟩ := by
      unfold const_get_next_interval
      rw [if_pos (show 0 < (⟨ivl, N⟩ : ConstData).steps_left by show 0 < N; omega)]
    show constIter n (const_get_next_interval ⟨ivl, N⟩).1 = _
    rw [hnext, ih (N-1) (by omega)]
    congr 1
    omega

lemma accel_mono_step (d : TrapData) (hpre : d.pre_decel_steps_left = 0)
    (hacc : 0 < d.accel_steps_left) (hidx1 : 1 ≤ d.acceleration_idx)
    (hidxb : d.acceleration_idx + 1 < 2^30)
    (hc1 : 1 ≤ d.current_interval) (hcb : d.current_interval < 2^60)
    (hrest : d.interval_calculation_rest < 4 * d.acceleration_idx) :
    ∃ d' i, trap_get_next_interval d = some (d', i) ∧ i = d'.current_interval ∧
      i = d.current_interval -
        (2 * d.current_interval + d.interval_calculation_rest) /
          (4 * (d.acceleration_idx + 1)) ∧
      d'.interval_calculation_rest =
        (2 * d.current_interval + d.interval_calculation_rest) %
          (4 * (d.acceleration_idx + 1)) ∧
      d'.acceleration_idx = d.acceleration_idx + 1 ∧
      0 < i ∧ i ≤ d.current_interval := by
  unfold trap_get_next_interval
  rw [if_neg (by omega), if_pos hacc]
  have hu32i : u32 (d.acceleration_idx + 1) = d.acceleration_idx + 1 :=
    u32_eq_of_lt (by unfold U32; omega)
  have hden_lt : 4 * (d.acceleration_idx + 1) < U32 := by unfold U32; omega
  have hdenne : u32 (4 * u32 (d.acceleration_idx + 1)) ≠ 0 := by
    rw [hu32i, u32_eq_of_lt hden_lt]
    omega
  have heq := accel_step_eq d (by omega) hdenne
  rw [hu32i, u32_eq_of_lt hden_lt] at heq
  have hnum_lt : 2 * d.current_interval + d.interval_calculation_rest < U64 := by
    unfold U64
    omega
  rw [u64_eq_of_lt hnum_lt] at heq
  have hinc_lt : (2 * d.current_interval + d.interval_calculation_rest) /
      (4 * (d.acceleration_idx + 1)) < d.current_interval := by
    rw [Nat.div_lt_iff_lt_mul (by omega)]
    have h1 : 4 * d.acceleration_idx ≤ 4 * d.acceleration_idx * d.current_interval :=
      Nat.le_mul_of_pos_right _ (by omega)
    nlinarith
  have hsub := u64_sub_eq (le_of_lt hinc_lt)
    (show d.current_interval < U64 by unfold U64; omega)
  rw [hsub] at heq
  rw [heq]
  refine ⟨_, _, rfl, rfl, rfl, rfl, rfl, ?_, ?_⟩
  · show 0 < d.current_interval -
      (2 * d.current_interval + d.interval_calculation_rest) / (4 * (d.acceleration_idx + 1))
    exact Nat.sub_pos_of_lt hinc_lt
  · show d.current_interval -
      (2 * d.current_interval + d.interval_calculation_rest) / (4 * (d.acceleration_idx + 1)) ≤
      d.current_interval
    exact Nat.sub_le _ _

lemma decel_mono_step (d : TrapData) (hpre : d.pre_decel_steps_left = 0)
    (hacc : d.accel_steps_left = 0) (hrun : d.run_steps_left = 0)
    (hm2 : 2 ≤ d.decel_steps_left) (hmb : d.decel_steps_left < 2^30)
    (hcb : d.current_interval ≤ 2^60) (hrb : d.interval_calculation_rest < 2^32) :
    ∃ d' i, trap_get_next_interval d = some (d', i) ∧ i = d'.current_interval ∧
      i = d.current_interval +
        (2 * d.current_interval + d.interval_calculation_rest) /
          (4 * (d.decel_steps_left - 1)) ∧
      d.current_interval ≤ i := by
  unfold trap_get_next_interval
  rw [if_neg (by omega), if_neg (by omega), if_neg (by omega), if_pos (by omega)]
  have hnum_lt : 2 * d.current_interval + d.interval_calculation_rest < U64 := by
    unfold U64
    omega
  have hden_lt : 4 * (d.decel_steps_left - 1) < U32 := by unfold U32; omega
  have heq := decel_step_eq d (by omega) (by rw [u32_eq_of_lt hden_lt]; omega)
  rw [u64_eq_of_lt hnum_lt, u32_eq_of_lt hden_lt] at heq
  have hinc_b : (2 * d.current_interval + d.interval_calculation_rest) /
      (4 * (d.decel_steps_left - 1)) ≤ 2^59 + 2^30 := by
    have h1 : (2 * d.current_interval + d.interval_calculation_rest) /
        (4 * (d.decel_steps_left - 1))
        ≤ (2 * d.current_interval + d.interval_calculation_rest) / 4 :=
      Nat.div_le_div_left (by omega) (by omega)
    have h2 : (2 * d.current_interval + d.interval_calculation_rest) / 4
        ≤ (2 * 2^60 + 2^32) / 4 := Nat.div_le_div_right (by omega)
    norm_num at h2
    omega
  have hcinc : d.current_interval + (2 * d.current_interval + d.interval_calculation_rest) /
      (4 * (d.decel_steps_left - 1)) < U64 := by unfold U64; omega
  rw [u64_eq_of_lt hcinc] at heq
  rw [heq]
  refine ⟨_, _, rfl, rfl, rfl, ?_⟩
  show d.current_interval ≤ d.current_interval +
    (2 * d.current_interval + d.interval_calculation_rest) / (4 * (d.decel_steps_left - 1))
  exact Nat.le_add_right _ _

/-- C8: for every 64-bit unsigned integer n in [0, 2^64), isqrt(n) returns
the integer floor square root: isqrt(n)^2 <= n and n < (isqrt(n)+1)^2. -/
theorem C8_isqrt_correct (n : Nat) (h : n < U64) :
    isqrt n * isqrt n ≤ n ∧ n < (isqrt n + 1) * (isqrt n + 1) := by
  rw [isqrt_eq_sqrt n h]
  exact ⟨Nat.sqrt_le n, Nat.lt_succ_sqrt n⟩

/-- Witness for C8 at the concrete input 123456789. -/
theorem C8_isqrt_correct_witness :
    (123456789 : Nat) < U64 ∧
    (isqrt 123456789 * isqrt 123456789 ≤ 123456789 ∧
     123456789 < (isqrt 123456789 + 1) * (isqrt 123456789 + 1)) :=
  ⟨by decide, C8_isqrt_correct 123456789 (by decide)⟩

/-- C10: the Babylonian loop of isqrt terminates for every input.  The
loop is embedded with an explicit fuel bound on the number of passes;
since the iterate strictly decreases on every executed pass (the loop
guard `y < x`), `n` passes always suffice from the start iterate `x = n`:
the result is independent of any fuel of at least `n`, and for `n ≥ 2`
that fuel-independent loop value (truncated to uint32) is exactly
`isqrt n`.  Hence isqrt is a total function of its input. -/
theorem C10_isqrt_terminates (n fuel : Nat) (h : n ≤ fuel) :
    isqrtGo n fuel n = isqrtGo n n n ∧ (2 ≤ n → isqrt n = isqrtGo n fuel n % U32) := by
  have he := isqrtGo_fuel n n fuel n h le_rfl
  refine ⟨he, fun h2 => ?_⟩
  unfold isqrt
  rw [if_neg (by omega), he]

/-- Witness for C10 at n = 10 with fuel 13. -/
theorem C10_isqrt_terminates_witness :
    (10 : Nat) ≤ 13 ∧
    (isqrtGo 10 13 10 = isqrtGo 10 10 10 ∧
     (2 ≤ 10 → isqrt 10 = isqrtGo 10 13 10 % U32)) :=
  ⟨by decide, C10_isqrt_terminates 10 13 (by decide)⟩

/-- Formula asserted by the spec for the acceleration recurrence
(spec 4.1.2): c_n = c_(n-1) - (2 c_(n-1) + r) / (4 n + 1).  Written from
the spec's words, for comparison with the code's update. -/
def spec_accel_recurrence (c r n : Nat) : Nat := c - (2 * c + r) / (4 * n + 1)

/-- C2 counterexample: in the state reached from rest after the first
acceleration step of the profile (acceleration 1000, cruise interval
1000000 ns, deceleration 1000) — acceleration_idx = 1, current interval
c0 = 30231638, remainder 0 — the code produces
30231638 - (2 * 30231638) / 8 = 22673729, while the spec formula with
denominator 4 n + 1 = 5 gives 18138983.  The code's divisor is the
post-incremented index: 4 (n + 1), not 4 n + 1. -/
theorem C2_counterexample :
    ((trap_get_next_interval ⟨0, 4, 0, 5, 1000000, 30231638, 30231638, 0, 1, 30231638⟩).map
        fun x => x.2) = some 22673729 ∧
    spec_accel_recurrence 30231638 0 1 = 18138983 ∧
    (22673729 : Nat) ≠ 18138983 :=
  ⟨by decide, by decide, by decide⟩

/-- C2 amended: in the acceleration phase, for every step index n ≥ 1
(counted by acceleration_idx, step 0 returning the initial interval c0),
the interval produced satisfies
c_n = c_(n-1) - (2 c_(n-1) + r) / (4 (n + 1)), where r is the remainder
carried in interval_calculation_rest from the previous update, and the
new remainder is (2 c_(n-1) + r) mod (4 (n + 1)).  The bounds exclude
32- and 64-bit overflow in the divisor and the numerator. -/
theorem C2_amended_accel_recurrence (d : TrapData)
    (hpre : d.pre_decel_steps_left = 0) (hacc : 0 < d.accel_steps_left)
    (hn : 1 ≤ d.acceleration_idx) (hnb : d.acceleration_idx + 1 < 2^30)
    (hc : 1 ≤ d.current_interval) (hcb : d.current_interval < 2^60)
    (hr : d.interval_calculation_rest < 4 * d.acceleration_idx) :
    ∃ d' i, trap_get_next_interval d = some (d', i) ∧ i = d'.current_interval ∧
      i = d.current_interval - (2 * d.current_interval + d.interval_calculation_rest) /
            (4 * (d.acceleration_idx + 1)) ∧
      d'.interval_calculation_rest = (2 * d.current_interval + d.interval_calculation_rest) %
            (4 * (d.acceleration_idx + 1)) ∧
      d'.acceleration_idx = d.acceleration_idx + 1 := by
  obtain ⟨d', i, h1, h2, h3, h4, h5, h6, h7⟩ := accel_mono_step d hpre hacc hn hnb hc hcb hr
  exact ⟨d', i, h1, h2, h3, h4, h5⟩

/-- Witness for the amended C2 at the state of the counterexample. -/
theorem C2_amended_accel_recurrence_witness :
    (0 : Nat) < 4 ∧ (1 : Nat) ≤ 1 ∧
    (∃ d' i, trap_get_next_interval
        ⟨0, 4, 0, 5, 1000000, 30231638, 30231638, 0, 1, 30231638⟩ = some (d', i) ∧
      i = d'.current_interval ∧
      i = 30231638 - (2 * 30231638 + 0) / (4 * (1 + 1)) ∧
      d'.interval_calculation_rest = (2 * 30231638 + 0) % (4 * (1 + 1)) ∧
      d'.acceleration_idx = 1 + 1) :=
  ⟨by decide, by decide,
   C2_amended_accel_recurrence ⟨0, 4, 0, 5, 1000000, 30231638, 30231638, 0, 1, 30231638⟩
     rfl (by decide) (by decide) (by decide) (by decide) (by decide) (by decide)⟩

/-- C1 counterexample: the claim quantifies over every starting state.
Preparing a move of 100 steps at the profile (acceleration 1000, cruise
interval 1000000 ns, deceleration 1000) from a state in which the ramp is
at a faster speed than the target (current interval 500000 ns) and holds
a stale decel_steps_left = 500 returns 2000, not 100: the slow-down
branch budgets pre-deceleration plus the stale deceleration counter and
does not clip the total to the requested step count. -/
theorem C1_counterexample :
    ((trap_prepare_move ⟨1000, 1000000, 1000⟩
        { freshTrapData with current_interval := 500000, decel_steps_left := 500 } 100).map
      fun x => x.2) = some 2000 ∧ (2000 : Nat) ≠ 100 :=
  ⟨by decide, by decide⟩

/-- C1 amended: the claim holds for the constant ramp from any state, and
for the trapezoidal ramp when the move is prepared from rest (the
zero-initialised ramp data) with positive rates, a positive cruise
interval, and operands small enough that the 32-bit phase arithmetic does
not wrap.  Then prepare_move(N) returns N, N equals the sum of the four
phase counters it sets, and the following N get_next_interval calls each
return a positive interval and decrement exactly one phase counter in the
order pre-decel, accel, run, decel, after which get_next_interval returns
0.  For the constant ramp the single steps_left counter plays the role of
the phase counters. -/
theorem C1_amended_step_budget :
    (∀ (p : TrapProfile) (N : Nat),
       1 ≤ p.acceleration_rate → p.acceleration_rate < 2^31 →
       1 ≤ p.deceleration_rate → p.deceleration_rate < 2^31 →
       1 ≤ p.run_interval → p.run_interval < U32 →
       1 ≤ N → N < 2^30 → N * p.acceleration_rate < U32 →
       u32 (NSEC_PER_SEC / p.run_interval * (NSEC_PER_SEC / p.run_interval) /
         (p.acceleration_rate * 2)) +
       u32 (NSEC_PER_SEC / p.run_interval * (NSEC_PER_SEC / p.run_interval) /
         (p.deceleration_rate * 2)) < U32 →
       ∃ d0, trap_prepare_move p freshTrapData N = some (d0, N) ∧ totalSteps d0 = N ∧
         (∀ k, k < N → ∃ d1 d2 i, trapIter k d0 = some d1 ∧
            trap_get_next_interval d1 = some (d2, i) ∧ 0 < i ∧
            totalSteps d2 + 1 = totalSteps d1 ∧ phaseStep d1 d2) ∧
         (∃ dN, trapIter N d0 = some dN ∧
            trap_get_next_interval dN = some ({ dN with current_interval := 0 }, 0))) ∧
    (∀ (p : ConstProfile) (d : ConstData) (N : Nat),
       1 ≤ p.interval_ns → 1 ≤ N → N < U32 →
       const_prepare_move p d N = ({ interval_ns := p.interval_ns, steps_left := N }, N) ∧
       (∀ k, k < N →
          const_get_next_interval (constIter k ⟨p.interval_ns, N⟩) =
            (⟨p.interval_ns, N - (k+1)⟩, p.interval_ns)) ∧
       const_get_next_interval (constIter N ⟨p.interval_ns, N⟩) =
         (⟨p.interval_ns, 0⟩, 0)) := by
  constructor
  · intro p N ha1 ha2 hd1 hd2 hri1 hri2 hN1 hN2 hNa hAD
    obtain ⟨d0, hprep, hI0, htot0⟩ :=
      prepare_from_rest p N ha1 ha2 hd1 hd2 hri1 hri2 hN1 hN2 hNa hAD
    refine ⟨d0, hprep, htot0, ?_, ?_⟩
    · intro k hk
      obtain ⟨d1, hiter, hI1, htot1⟩ := inv_iter k d0 hI0 (by omega)
      obtain ⟨d2, i, hnext, hi, hival, hI2, htot2, hph⟩ := inv_step d1 hI1 (by omega)
      exact ⟨d1, d2, i, hiter, hnext, hi, by omega, hph⟩
    · obtain ⟨dN, hiter, hIN, htotN⟩ := inv_iter N d0 hI0 (by omega)
      exact ⟨dN, hiter, inv_done dN (by omega)⟩
  · intro p d N hiv hN1 hN2
    have hNu : u32 N = N := u32_eq_of_lt hN2
    refine ⟨?_, ?_, ?_⟩
    · unfold const_prepare_move
      rw [hNu]
    · intro k hk
      rw [const_iter_val p.interval_ns k N (by omega)]
      unfold const_get_next_interval
      rw [if_pos (show 0 < (⟨p.interval_ns, N - k⟩ : ConstData).steps_left by
        show 0 < N - k; omega)]
      have h1 : N - k - 1 = N - (k+1) := by omega
      simp [h1]
    · rw [const_iter_val p.interval_ns N N le_rfl]
      unfold const_get_next_interval
      rw [if_neg (show ¬ 0 < (⟨p.interval_ns, N - N⟩ : ConstData).steps_left by
        show ¬ 0 < N - N; omega)]
      simp [Nat.sub_self]

/-- Witness for the amended C1: the trapezoidal part at the profile
(1000, 1000000, 1000) with N = 10 from rest, and the constant part at
interval 1000000 with N = 7. -/
theorem C1_amended_step_budget_witness :
    (1 ≤ (1000 : Nat) ∧ (10 : Nat) * 1000 < U32 ∧
     ∃ d0, trap_prepare_move ⟨1000, 1000000, 1000⟩ freshTrapData 10 = some (d0, 10) ∧
       totalSteps d0 = 10 ∧
       (∀ k, k < 10 → ∃ d1 d2 i, trapIter k d0 = some d1 ∧
          trap_get_next_interval d1 = some (d2, i) ∧ 0 < i ∧
          totalSteps d2 + 1 = totalSteps d1 ∧ phaseStep d1 d2) ∧
       (∃ dN, trapIter 10 d0 = some dN ∧
          trap_get_next_interval dN = some ({ dN with current_interval := 0 }, 0))) ∧
    (1 ≤ (1000000 : Nat) ∧
     const_prepare_move ⟨1000000⟩ ⟨0, 0⟩ 7 = (⟨1000000, 7⟩, 7) ∧
     (∀ k, k < 7 → const_get_next_interval (constIter k ⟨1000000, 7⟩) =
        (⟨1000000, 7 - (k+1)⟩, 1000000)) ∧
     const_get_next_interval (constIter 7 ⟨1000000, 7⟩) = (⟨1000000, 0⟩, 0)) := by
  constructor
  · exact ⟨by decide, by decide,
      C1_amended_step_budget.1 ⟨1000, 1000000, 1000⟩ 10 (by decide) (by decide) (by decide)
        (by decide) (by decide) (by decide) (by decide) (by decide) (by decide) (by decide)⟩
  · exact ⟨by decide,
      C1_amended_step_budget.2 ⟨1000000⟩ ⟨0, 0⟩ 7 (by decide) (by decide) (by decide)⟩

/-- Interval sequence of `k` successive `get_next_interval` calls. -/
def trapRunIntervals : Nat → TrapData → Option (List Nat)
  | 0, _ => some []
  | k+1, d => (trap_get_next_interval d).bind fun x =>
      (trapRunIntervals k x.1).map fun is => x.2 :: is

/-- C5 counterexample: prepare_move(10) from rest at the profile
(acceleration 1000, cruise interval 1000000 ns, deceleration 1000) plans
5 acceleration and 5 deceleration steps (no cruise).  The emitted
intervals are listed below; the 9th and 10th are both deceleration-phase
intervals, and the 10th — the final step, forced to
last_deceleration_interval — drops from 36617853 to 30231638.  The
deceleration phase is therefore not monotonically non-decreasing. -/
theorem C5_counterexample :
    ((trap_prepare_move ⟨1000, 1000000, 1000⟩ freshTrapData 10).bind fun x =>
       trapRunIntervals 10 x.1) =
      some [30231638, 22673729, 18894774, 16532928, 14879635,
            16739590, 19529521, 24411902, 36617853, 30231638] ∧
    ¬ (36617853 ≤ (30231638 : Nat)) :=
  ⟨by decide, by decide⟩

/-- C5 amended: within a single prepared move the intervals are
monotonically non-increasing during the acceleration phase, constant
during the cruise phase, and monotonically non-decreasing during the
deceleration phase except possibly at the final deceleration step, which
is forced to `last_deceleration_interval` and may fall below its
predecessor.  Stated per step, with bounds excluding machine-width
wrap-around; the acceleration part additionally assumes the carried
remainder invariant `rest < 4 * acceleration_idx`, which holds along any
run from rest. -/
theorem C5_amended_monotonicity :
    (∀ d : TrapData, d.pre_decel_steps_left = 0 → 0 < d.accel_steps_left →
       1 ≤ d.acceleration_idx → d.acceleration_idx + 1 < 2^30 →
       1 ≤ d.current_interval → d.current_interval < 2^60 →
       d.interval_calculation_rest < 4 * d.acceleration_idx →
       ∃ d' i, trap_get_next_interval d = some (d', i) ∧ 0 < i ∧ i ≤ d.current_interval) ∧
    (∀ d : TrapData, d.pre_decel_steps_left = 0 → d.accel_steps_left = 0 →
       0 < d.run_steps_left →
       trap_get_next_interval d =
         some ({ d with run_steps_left := d.run_steps_left - 1,
                        current_interval := d.run_interval }, d.run_interval)) ∧
    (∀ d : TrapData, d.pre_decel_steps_left = 0 → d.accel_steps_left = 0 →
       d.run_steps_left = 0 → 2 ≤ d.decel_steps_left → d.decel_steps_left < 2^30 →
       d.current_interval ≤ 2^60 → d.interval_calculation_rest < 2^32 →
       ∃ d' i, trap_get_next_interval d = some (d', i) ∧ d.current_interval ≤ i) := by
  refine ⟨?_, ?_, ?_⟩
  · intro d h1 h2 h3 h4 h5 h6 h7
    obtain ⟨d', i, e1, e2, e3, e4, e5, e6, e7⟩ := accel_mono_step d h1 h2 h3 h4 h5 h6 h7
    exact ⟨d', i, e1, e6, e7⟩
  · intro d h1 h2 h3
    unfold trap_get_next_interval
    rw [if_neg (by omega), if_neg (by omega), if_pos h3]
  · intro d h1 h2 h3 h4 h5 h6 h7
    obtain ⟨d', i, e1, e2, e3, e4⟩ := decel_mono_step d h1 h2 h3 h4 h5 h6 h7
    exact ⟨d', i, e1, e4⟩

/-- Witness for the amended C5: one acceleration step, one cruise step
and one non-final deceleration step at concrete states. -/
theorem C5_amended_monotonicity_witness :
    ((0 : Nat) < 4 ∧
     ∃ d' i, trap_get_next_interval
        ⟨0, 4, 0, 5, 1000000, 30231638, 30231638, 0, 1, 30231638⟩ = some (d', i) ∧
        0 < i ∧ i ≤ 30231638) ∧
    (trap_get_next_interval ⟨0, 0, 3, 1, 1000000, 30231638, 30231638, 4, 5, 1000000⟩ =
       some (⟨0, 0, 2, 1, 1000000, 30231638, 30231638, 4, 5, 1000000⟩, 1000000)) ∧
    ((2 : Nat) ≤ 3 ∧
     ∃ d' i, trap_get_next_interval
        ⟨0, 0, 0, 3, 0, 30231638, 30231638, 4, 5, 1000000⟩ = some (d', i) ∧
        1000000 ≤ i) := by
  refine ⟨⟨by decide, ?_⟩, ?_, ⟨by decide, ?_⟩⟩
  · exact C5_amended_monotonicity.1 ⟨0, 4, 0, 5, 1000000, 30231638, 30231638, 0, 1, 30231638⟩
      rfl (by decide) (by decide) (by decide) (by decide) (by decide) (by decide)
  · exact C5_amended_monotonicity.2.1 ⟨0, 0, 3, 1, 1000000, 30231638, 30231638, 4, 5, 1000000⟩
      rfl rfl (by decide)
  · exact C5_amended_monotonicity.2.2 ⟨0, 0, 0, 3, 0, 30231638, 30231638, 4, 5, 1000000⟩
      rfl rfl rfl (by decide) (by decide) (by decide) (by decide)

/-- A positive next interval re-arms the timing source
(calculate_next_interval, first branch). -/
lemma calc_next_arm {σ : Type} (api : stepper_ramp_api σ) (c : ControllerState σ)
    (r1 : σ) (i : Nat) (h : api.get_next_interval c.ramp = some (r1, i)) (hi : 0 < i) :
    calculate_next_interval api c = some { c with ramp := r1, timer_interval := i } := by
  unfold calculate_next_interval
  rw [h]
  simp only [Option.bind_eq_bind, Option.some_bind]
  rw [if_pos hi]

/-- A zero next interval with no remaining target stops the timing source
and emits STEPS_COMPLETED (calculate_next_interval, final branch). -/
lemma calc_next_done {σ : Type} (api : stepper_ramp_api σ) (c : ControllerState σ)
    (r1 : σ) (h : api.get_next_interval c.ramp = some (r1, 0))
    (hrel : c.relative_target_position = 0) :
    calculate_next_interval api c = some { c with
      ramp := r1,
      timer_interval := 0,
      events := c.events ++ [STEPPER_EVENT_STEPS_COMPLETED] } := by
  unfold calculate_next_interval
  rw [h]
  simp only [Option.bind_eq_bind, Option.some_bind]
  rw [if_neg (by omega), if_neg (by simp [hrel])]

/-- A zero next interval with a non-zero remaining target flips the
direction to the sign of the target, prepares a move over its absolute
value and re-arms with that plan's first interval
(calculate_next_interval, reversal branch). -/
lemma calc_next_reversal {σ : Type} (api : stepper_ramp_api σ) (c : ControllerState σ)
    (r1 r2 r3 : σ) (cnt i2 : Nat)
    (h1 : api.get_next_interval c.ramp = some (r1, 0))
    (h2 : c.relative_target_position ≠ 0)
    (h3 : api.prepare_move r1 c.relative_target_position.natAbs = some (r2, cnt))
    (h4 : api.get_next_interval r2 = some (r3, i2)) :
    calculate_next_interval api c =
      some { c with
        ramp := r3,
        direction := SIGN c.relative_target_position,
        timer_interval := i2 } := by
  unfold calculate_next_interval
  rw [h1]
  simp only [Option.bind_eq_bind, Option.some_bind]
  rw [if_neg (by omega), if_pos h2, h3]
  simp only [Option.some_bind]
  rw [h4]
  simp only [Option.some_bind]

/-- The int32 value stored by stop(): for a direction of +1 or -1 and a
step count below 2^31, the C cast chain produces direction * count. -/
lemma sign_stop_rel (dir : Int) (D : Nat) (hdir : dir = 1 ∨ dir = -1)
    (hD : 0 < D) (hDb : D < 2^31) :
    toInt32 (sign_mul_u64 (SIGN dir) D) = dir * (D : Int) := by
  rcases hdir with h | h <;> subst h
  · unfold SIGN
    rw [if_neg (by norm_num)]
    unfold sign_mul_u64
    rw [if_neg (by norm_num)]
    unfold toInt32 u64 U64 U32
    have key : D % 18446744073709551616 % 4294967296 = D := by omega
    rw [key, if_pos (by omega)]
    omega
  · unfold SIGN
    rw [if_pos (by norm_num)]
    unfold sign_mul_u64
    rw [if_pos (by norm_num)]
    unfold toInt32 u64 U64 U32
    have key : (18446744073709551616 - 1) * D % 18446744073709551616 % 4294967296 =
        4294967296 - D := by omega
    rw [key, if_neg (by omega)]
    omega

/-- C7: on a tick whose hardware step callback fails,
`stepper_handle_timing_signal` still computes and arms the next interval
and advances the ramp, but — contrary to the claim — it does NOT
decrement the relative target: `stepper_motion_controller_perform_step`
returns early on failure, before the position accounting, so the
relative target, the step count and the emitted events are all left
unchanged. -/
theorem C7_amended_step_failure {σ : Type} (api : stepper_ramp_api σ)
    (c : ControllerState σ) (r1 : σ) (i : Nat)
    (h : api.get_next_interval c.ramp = some (r1, i)) (hi : 0 < i) :
    handle_timing_signal api false c =
      some { c with ramp := r1, timer_interval := i } := by
  unfold handle_timing_signal perform_step
  rw [if_neg (by simp)]
  exact calc_next_arm api c r1 i h hi

theorem C7_amended_step_failure_witness :
    (constAPI ⟨1000⟩).get_next_interval ⟨1000, 3⟩ = some (⟨1000, 2⟩, 1000) ∧
    (0 : Nat) < 1000 ∧
    handle_timing_signal (constAPI ⟨1000⟩) false ⟨⟨1000, 3⟩, 1, 5, 1000, [], 0⟩ =
      some ⟨⟨1000, 2⟩, 1, 5, 1000, [], 0⟩ :=
  ⟨by decide, by decide,
   C7_amended_step_failure (constAPI ⟨1000⟩) ⟨⟨1000, 3⟩, 1, 5, 1000, [], 0⟩
     ⟨1000, 2⟩ 1000 (by decide) (by decide)⟩

/-- C7 counterexample: a constant-ramp controller moving towards a
relative target of 5 receives a tick whose step callback fails.  The
claim says the tick still decrements the relative target (5 is neither
INT32_MAX nor INT32_MIN), i.e. it should become 4; in the code the early
return on step failure skips the decrement and the target stays 5. -/
theorem C7_counterexample :
    ((handle_timing_signal (constAPI ⟨1000⟩) false
        ⟨⟨1000, 3⟩, 1, 5, 1000, [], 0⟩).map
      fun s => s.relative_target_position) = some 5 ∧ (5 : Int) ≠ 5 - 1 :=
  ⟨by decide, by decide⟩

/-- A demonstration trapezoidal profile: acceleration and deceleration
rate 50, cruise interval 100000000 ns (the start interval for rate 50 is
135199999 ns, and one acceleration and one deceleration step are needed
to reach the cruise speed). -/
def demoProfile : TrapProfile := ⟨50, 100000000, 50⟩

/-- Reversal scenario: from idle, `move_by 10`, four successful ticks
(one acceleration step, three cruise steps), then `move_by (-3)` against
the current direction (which plans a one-step decelerated stop and stores
the target -3), then five further successful ticks, which complete the
deceleration, reverse and run the new plan to completion. -/
def c3scenario : Option (ControllerState TrapData) := do
  let c1 ← move_by (trapAPI demoProfile) (initController freshTrapData) 10
  let c2 ← ticksN (trapAPI demoProfile) 4 c1
  let c3 ← move_by (trapAPI demoProfile) c2 (-3)
  ticksN (trapAPI demoProfile) 5 c3

/-- Stop scenario: from idle, `move_by 10`, two successful ticks, `stop()`
(which plans and immediately consumes a one-step deceleration), then the
one tick that finishes the movement. -/
def c4scenario : Option (ControllerState TrapData) := do
  let c1 ← move_by (trapAPI demoProfile) (initController freshTrapData) 10
  let c2 ← ticksN (trapAPI demoProfile) 2 c1
  let c3 ← motion_stop (trapAPI demoProfile) c2
  ticksN (trapAPI demoProfile) 1 c3

/-- `move_by 0` issued while cruising in the negative direction: from
idle, `move_by (-10)`, four successful ticks, then `move_by 0`. -/
def c9scenario : Option (ControllerState TrapData) := do
  let c1 ← move_by (trapAPI demoProfile) (initController freshTrapData) (-10)
  let c2 ← ticksN (trapAPI demoProfile) 4 c1
  move_by (trapAPI demoProfile) c2 0

/-- C4, amended: what `stepper_motion_controller_stop` actually does.
(1) When the ramp plans a decelerated stop of `D` steps (`1 <= D < 2^31`)
and the follow-up interval is positive, the relative target becomes
`direction * D` and the timer is re-armed with that interval.
(2) When the planned stop count is zero, the relative target is cleared
and the timer disarmed.  (3) When the deceleration later runs out (next
interval 0 with target 0), the controller emits STEPS_COMPLETED — the
code never emits STEPPER_EVENT_STOPPED anywhere, so the claimed STOPPED
event on stop completion does not exist; (4) records that the two event
codes differ. -/
theorem C4_amended_stop_semantics :
    (∀ (σ : Type) (api : stepper_ramp_api σ) (c : ControllerState σ) (r1 r2 : σ)
       (D i : Nat),
       api.prepare_stop c.ramp = some (r1, D) → 0 < D → D < 2 ^ 31 →
       (c.direction = 1 ∨ c.direction = -1) →
       api.get_next_interval r1 = some (r2, i) → 0 < i →
       motion_stop api c = some { c with
         ramp := r2,
         relative_target_position := c.direction * (D : Int),
         timer_interval := i }) ∧
    (∀ (σ : Type) (api : stepper_ramp_api σ) (c : ControllerState σ) (r1 : σ),
       api.prepare_stop c.ramp = some (r1, 0) →
       motion_stop api c = some { c with
         ramp := r1,
         relative_target_position := 0,
         timer_interval := 0 }) ∧
    (∀ (σ : Type) (api : stepper_ramp_api σ) (c : ControllerState σ) (r1 : σ),
       api.get_next_interval c.ramp = some (r1, 0) →
       c.relative_target_position = 0 →
       calculate_next_interval api c = some { c with
         ramp := r1,
         timer_interval := 0,
         events := c.events ++ [STEPPER_EVENT_STEPS_COMPLETED] }) ∧
    STEPPER_EVENT_STEPS_COMPLETED ≠ STEPPER_EVENT_STOPPED := by
  refine ⟨?_, ?_, ?_, by decide⟩
  · intro σ api c r1 r2 D i hps hD hDb hdir hni hi
    unfold motion_stop
    rw [hps]
    simp only [Option.bind_eq_bind, Option.some_bind]
    rw [if_pos hD, sign_stop_rel c.direction D hdir hD hDb]
    exact calc_next_arm api _ r2 i hni hi
  · intro σ api c r1 hps
    unfold motion_stop
    rw [hps]
    simp only [Option.bind_eq_bind, Option.some_bind]
    rw [if_neg (by omega)]
  · intro σ api c r1 h hrel
    exact calc_next_done api c r1 h hrel

theorem C4_amended_stop_semantics_witness :
    ((trapAPI demoProfile).prepare_stop
        (⟨0, 0, 5, 0, 100000000, 135199999, 135199999, 0, 0, 100000000⟩ : TrapData) =
      some (⟨0, 0, 0, 1, 0, 135199999, 135199999, 0, 0, 100000000⟩, 1)) ∧
    ((trapAPI demoProfile).get_next_interval
        ⟨0, 0, 0, 1, 0, 135199999, 135199999, 0, 0, 100000000⟩ =
      some (⟨0, 0, 0, 0, 0, 135199999, 135199999, 0, 0, 135199999⟩, 135199999)) ∧
    motion_stop (trapAPI demoProfile)
        ⟨⟨0, 0, 5, 0, 100000000, 135199999, 135199999, 0, 0, 100000000⟩,
         1, 5, 100000000, [], 2⟩ =
      some ⟨⟨0, 0, 0, 0, 0, 135199999, 135199999, 0, 0, 135199999⟩,
            1, 1, 135199999, [], 2⟩ ∧
    motion_stop (constAPI ⟨1000⟩) ⟨⟨1000, 3⟩, 1, 5, 1000, [], 0⟩ =
      some ⟨⟨1000, 0⟩, 1, 0, 0, [], 0⟩ ∧
    calculate_next_interval (constAPI ⟨1000⟩) ⟨⟨1000, 0⟩, 1, 0, 0, [], 0⟩ =
      some ⟨⟨1000, 0⟩, 1, 0, 0, [STEPPER_EVENT_STEPS_COMPLETED], 0⟩ :=
  ⟨by decide, by decide,
   C4_amended_stop_semantics.1 TrapData (trapAPI demoProfile)
     ⟨⟨0, 0, 5, 0, 100000000, 135199999, 135199999, 0, 0, 100000000⟩,
      1, 5, 100000000, [], 2⟩
     ⟨0, 0, 0, 1, 0, 135199999, 135199999, 0, 0, 100000000⟩
     ⟨0, 0, 0, 0, 0, 135199999, 135199999, 0, 0, 135199999⟩ 1 135199999
     (by decide) (by decide) (by decide) (Or.inl rfl) (by decide) (by decide),
   C4_amended_stop_semantics.2.1 ConstData (constAPI ⟨1000⟩)
     ⟨⟨1000, 3⟩, 1, 5, 1000, [], 0⟩ ⟨1000, 0⟩ (by decide),
   C4_amended_stop_semantics.2.2.1 ConstData (constAPI ⟨1000⟩)
     ⟨⟨1000, 0⟩, 1, 0, 0, [], 0⟩ ⟨1000, 0⟩ (by decide) rfl⟩

/-- C4 counterexample: a full stop run (move, two ticks, `stop()`, final
tick) terminates with the event trace `[STEPS_COMPLETED]`: the STOPPED
event the claim promises on completion of the deceleration is never
emitted (event code 4 does not occur in the trace). -/
theorem C4_counterexample :
    (c4scenario.map fun c =>
        (c.relative_target_position, c.timer_interval, c.steps_taken, c.events)) =
      some (0, 0, 3, [STEPPER_EVENT_STEPS_COMPLETED]) ∧
    STEPPER_EVENT_STOPPED ∉ [STEPPER_EVENT_STEPS_COMPLETED] :=
  ⟨by decide, by decide⟩

/-- C3, amended: the reversal tick itself is as claimed — when
`get_next_interval` returns 0 and the stored target is non-zero, the
controller flips the direction to the sign of the target, calls
`prepare_move` on the absolute value of the target and re-arms with the
first interval of the new plan (first conjunct, proved for any bound
ramp).  But the claimed step total is wrong: in the concrete cruise
reversal of `c3scenario` (deceleration step count D = 1, `move_by (-3)`)
each deceleration tick still decrements the stored target, so the
reversal plans |(-3) - D| = 4 steps and the run from the reversal command
to completion takes |n| + 2*D = 5 steps — 9 in total with the 4 steps
before the command — not D + |n| = 4 (8 in total).  The second conjunct
records the full observable outcome of the scenario. -/
theorem C3_amended_reversal :
    (∀ (σ : Type) (api : stepper_ramp_api σ) (c : ControllerState σ)
       (r1 r2 r3 : σ) (cnt i2 : Nat),
       api.get_next_interval c.ramp = some (r1, 0) →
       c.relative_target_position ≠ 0 →
       api.prepare_move r1 c.relative_target_position.natAbs = some (r2, cnt) →
       api.get_next_interval r2 = some (r3, i2) →
       calculate_next_interval api c = some { c with
         ramp := r3,
         direction := SIGN c.relative_target_position,
         timer_interval := i2 }) ∧
    (c3scenario.map fun c =>
        (c.steps_taken, c.relative_target_position, c.timer_interval, c.events)) =
      some (9, 0, 0, [STEPPER_EVENT_STEPS_COMPLETED]) := by
  refine ⟨?_, by decide⟩
  intro σ api c r1 r2 r3 cnt i2 h1 h2 h3 h4
  exact calc_next_reversal api c r1 r2 r3 cnt i2 h1 h2 h3 h4

theorem C3_amended_reversal_witness :
    ((constAPI ⟨1000⟩).get_next_interval ⟨1000, 0⟩ = some (⟨1000, 0⟩, 0)) ∧
    ((-2 : Int) ≠ 0) ∧
    ((constAPI ⟨1000⟩).prepare_move ⟨1000, 0⟩ (Int.natAbs (-2)) =
      some (⟨1000, 2⟩, 2)) ∧
    ((constAPI ⟨1000⟩).get_next_interval ⟨1000, 2⟩ = some (⟨1000, 1⟩, 1000)) ∧
    calculate_next_interval (constAPI ⟨1000⟩) ⟨⟨1000, 0⟩, 1, -2, 1000, [], 4⟩ =
      some ⟨⟨1000, 1⟩, -1, -2, 1000, [], 4⟩ :=
  ⟨by decide, by decide, by decide, by decide,
   C3_amended_reversal.1 ConstData (constAPI ⟨1000⟩) ⟨⟨1000, 0⟩, 1, -2, 1000, [], 4⟩
     ⟨1000, 0⟩ ⟨1000, 2⟩ ⟨1000, 1⟩ 2 1000 (by decide) (by decide) (by decide) (by decide)⟩

/-- C3 counterexample: in the cruise reversal scenario the total number
of hardware steps is 9, not the 4 + (1 + 3) = 8 predicted by the claimed
formula (deceleration steps) + |new relative target| for the part after
the reversal command. -/
theorem C3_counterexample :
    (c3scenario.map fun c => c.steps_taken) = some 9 ∧ 9 ≠ 4 + (1 + 3) :=
  ⟨by decide, by decide⟩

/-- `prepare_move` called with a step count of 0 on a ramp at rest
(current interval 0) plans an empty movement: all four phase counters are
zeroed and the returned total is 0; the start intervals and the cruise
interval are still (re)computed from the profile. -/
lemma prepare_move_zero (p : TrapProfile) (d : TrapData)
    (ha1 : 1 ≤ p.acceleration_rate) (ha2 : p.acceleration_rate < 2 ^ 31)
    (hd1 : 1 ≤ p.deceleration_rate) (hd2 : p.deceleration_rate < 2 ^ 31)
    (hri1 : 1 ≤ p.run_interval) (hri2 : p.run_interval < U32)
    (hcur : d.current_interval = 0) :
    trap_prepare_move p d 0 = some
      ({ d with
          pre_decel_steps_left := 0,
          accel_steps_left := 0,
          run_steps_left := 0,
          decel_steps_left := 0,
          acceleration_idx := 0,
          first_acceleration_interval := avr446_start_interval p.acceleration_rate,
          last_deceleration_interval := avr446_start_interval p.deceleration_rate,
          run_interval := p.run_interval }, 0) := by
  obtain ⟨AL, hAL⟩ : ∃ v, v = u32 (NSEC_PER_SEC / p.run_interval *
      (NSEC_PER_SEC / p.run_interval) / (p.acceleration_rate * 2)) := ⟨_, rfl⟩
  obtain ⟨DL, hDL⟩ : ∃ v, v = u32 (NSEC_PER_SEC / p.run_interval *
      (NSEC_PER_SEC / p.run_interval) / (p.deceleration_rate * 2)) := ⟨_, rfl⟩
  have hALb : AL < U32 := by rw [hAL]; exact Nat.mod_lt _ (by decide)
  have hDLb : DL < U32 := by rw [hDL]; exact Nat.mod_lt _ (by decide)
  have hs0 := steps_needed_at_zero p.deceleration_rate
  have hsa := steps_needed_eval p.run_interval p.acceleration_rate (by omega) hri2 ha1 ha2
  have hsd := steps_needed_eval p.run_interval p.deceleration_rate (by omega) hri2 hd1 hd2
  rw [← hAL] at hsa
  rw [← hDL] at hsd
  have h00 : u32 0 = 0 := rfl
  have hs0n : avr446_acceleration_steps_needed 0 p.deceleration_rate = some 0 := by
    rw [← h00]; exact hs0
  have haccel0 : u32 (AL + (U32 - 0)) = AL := by
    have h0 : AL + (U32 - 0) = AL + U32 := by omega
    rw [h0]
    unfold u32
    rw [Nat.add_mod_right]
    exact Nat.mod_eq_of_lt hALb
  have hrs : u32 (p.deceleration_rate + p.acceleration_rate) =
      p.deceleration_rate + p.acceleration_rate :=
    u32_eq_of_lt (by unfold U32; omega)
  have hU : u32 (0 + (U32 - 0)) = 0 := by
    have h0 : 0 + (U32 - 0) = U32 := by omega
    rw [h0]
    unfold u32
    exact Nat.mod_self U32
  unfold trap_prepare_move
  simp only [h00, hcur, hs0n, hs0, hsa, hsd, Option.bind_eq_bind, Option.some_bind,
    ne_eq, not_true_eq_false, false_and, if_false, eq_self_iff_true, true_or, if_true,
    haccel0]
  rw [if_pos (Nat.zero_le _), hrs, if_neg (by omega)]
  simp only [Nat.zero_mul, h00, Nat.zero_div, hU]

/-- C9, amended: `move_by 0` completes immediately only from idle — for a
controller whose timing source is disarmed and whose trapezoidal ramp is
at rest (current interval 0), with a valid profile, `move_by 0` plans an
empty movement, sets the direction to SIGN(0) = +1, clears the relative
target, leaves the (disarmed) timer untouched and emits STEPS_COMPLETED
without scheduling any tick.  (When the motor is moving, `move_by 0` does
something entirely different — see the C9 counterexample.) -/
theorem C9_amended_move_by_zero (p : TrapProfile) (c : ControllerState TrapData)
    (ha1 : 1 ≤ p.acceleration_rate) (ha2 : p.acceleration_rate < 2 ^ 31)
    (hd1 : 1 ≤ p.deceleration_rate) (hd2 : p.deceleration_rate < 2 ^ 31)
    (hri1 : 1 ≤ p.run_interval) (hri2 : p.run_interval < U32)
    (hidle : c.timer_interval = 0) (hrest : c.ramp.current_interval = 0) :
    move_by (trapAPI p) c 0 = some { c with
      direction := 1,
      ramp := { c.ramp with
        pre_decel_steps_left := 0,
        accel_steps_left := 0,
        run_steps_left := 0,
        decel_steps_left := 0,
        acceleration_idx := 0,
        first_acceleration_interval := avr446_start_interval p.acceleration_rate,
        last_deceleration_interval := avr446_start_interval p.deceleration_rate,
        run_interval := p.run_interval },
      relative_target_position := 0,
      events := c.events ++ [STEPPER_EVENT_STEPS_COMPLETED] } := by
  unfold move_by
  simp only [hidle, lt_irrefl, false_and, if_false, trapAPI, Int.natAbs_zero]
  rw [prepare_move_zero p c.ramp ha1 ha2 hd1 hd2 hri1 hri2 hrest]
  simp only [Option.bind_eq_bind, Option.some_bind]
  rw [if_neg (by omega)]
  simp [SIGN]

theorem C9_amended_move_by_zero_witness :
    (1 : Nat) ≤ 50 ∧
    move_by (trapAPI demoProfile) (initController freshTrapData) 0 =
      some ⟨⟨0, 0, 0, 0, 100000000, 135199999, 135199999, 0, 0, 0⟩,
            1, 0, 0, [STEPPER_EVENT_STEPS_COMPLETED], 0⟩ :=
  ⟨by decide,
   C9_amended_move_by_zero demoProfile (initController freshTrapData)
     (by decide) (by decide) (by decide) (by decide) (by decide) (by decide) rfl rfl⟩

/-- C9 counterexample: `move_by 0` issued while the motor cruises in the
negative direction does NOT complete immediately — because SIGN(0) = +1
differs from the current direction -1, the opposite-direction branch of
`stepper_motion_controller_move_by` plans a decelerated stop: no
STEPS_COMPLETED is emitted and a tick IS scheduled (the timer is re-armed
with 135199999 ns), contradicting the claim for this state. -/
theorem C9_counterexample :
    (c9scenario.map fun c => (c.timer_interval, c.events)) = some (135199999, []) ∧
    (135199999 : Nat) ≠ 0 ∧ ([] : List Nat) ≠ [STEPPER_EVENT_STEPS_COMPLETED] :=
  ⟨by decide, by decide, by decide⟩

/-- C6: the claim described intended error handling that the code does
not have; both halves diverge from it, as runs of the embedded code show.
(1) A zero acceleration rate makes `prepare_move` reach
`avr446_calculate_acceleration_steps_needed` with `acceleration * 2 = 0`
and divide by zero — undefined behaviour (modelled as `none`), not a
refused operation.  (2) A zero deceleration rate makes `prepare_stop`
return -EINVAL through its `uint64_t` return type; the controller treats
that huge value as a valid step count: `stop()` on a controller with
relative target 7 sets the target to the truncated int32 value -22 and
re-arms the timer, instead of leaving the state unchanged. -/
theorem C6_code_bug_zero_rates :
    trap_prepare_move ⟨0, 1000000, 50⟩ freshTrapData 10 = none ∧
    ((motion_stop (trapAPI ⟨50, 100000000, 0⟩)
        ⟨⟨0, 0, 5, 0, 100000000, 0, 0, 0, 0, 100000000⟩, 1, 7, 100000000, [], 0⟩).map
      fun c => (c.relative_target_position, c.timer_interval)) =
      some (-22, 100000000) ∧
    (-22 : Int) ≠ 7 :=
  ⟨by decide, by decide, by decide⟩
